import Mathlib

/-!
Verification of the CareerFairKiosk poll-and-reconcile loop.

The repository contains four JavaScript variants of the same kiosk
controller:

* `ScriptA`  — the first variant in script.js (iframe with redirect
  fallback and a grace timer);
* `ScriptB`  — the second variant in script.js (iframe-only, fixed
  1 s polling);
* `PartZero` — src/unnamed/part_000 (iframe-only, adaptive polling,
  warm iframe, visibility suspension);
* `PartOne`  — src/unnamed/part_001 (re-optimized, adaptive polling,
  active-without-URL waiting state).

Each namespace is a shallow embedding of one variant: the mutable
globals of the script become a `State` record, every DOM/timer effect
becomes an explicit field update, and the fetch result is passed in as
data.  Timer handles are modelled by the deadlines (for one-shot
timeouts) or by explicit live-instance tables (for `PartZero`, where
the claims are about timer discipline).  The field `srcWrites` counts
the assignments to the embed frame's src attribute (the setSource
calls of the spec); `navigated` records a whole-page navigation.
-/

namespace Kiosk

/-- A status record as returned by the /active endpoint. -/
structure StatusRecord where
  active : Bool
  itemId : Option String
  formUrl : Option String
deriving DecidableEq, Repr

/-- Outcome of one fetch of the status endpoint, as seen by the poll
loop: a parsed body (possibly absent/null), a non-success HTTP
response (the code throws on it), or a transport failure (the fetch
itself rejects). -/
inductive FetchOutcome where
  | success (data : Option StatusRecord)
  | httpError (status : Nat)
  | transportError
deriving DecidableEq, Repr

/-- JavaScript truthiness of an optional string (null/undefined and
the empty string are falsy). -/
def truthyStr : Option String → Bool
  | none => false
  | some s => s != ""

/-- JavaScript `x || d` on an optional string. -/
def orDefault (x : Option String) (d : String) : String :=
  match x with
  | none => d
  | some s => if s = "" then d else s

/-- The three display states of the spec. -/
inductive DisplayState where
  | Idle
  | ActiveLoading
  | ActiveLoaded
deriving DecidableEq, Repr

/-- The fetch outcomes the spec treats as an inactive report: an
absent/null record or a record with active not equal to true. -/
def inactiveOutcome (o : FetchOutcome) : Prop :=
  o = .success none ∨ ∃ d, o = .success (some d) ∧ d.active = false

/-- The fetch outcomes that are failures: transport errors and
non-success HTTP responses. -/
def failedOutcome (o : FetchOutcome) : Prop :=
  o = .transportError ∨ ∃ k, o = .httpError k

end Kiosk

namespace ScriptA

open Kiosk

def POLL_INTERVAL_MS : Nat := 1000
def ACTIVE_TIMEOUT_MS : Nat := 120000
def IFRAME_LOAD_GRACE_MS : Nat := 2500

/-- State of the first script.js variant: the mutable `state` object,
the visibility of the DOM regions, the frame's src attribute, and the
pending one-shot timers (stored as their deadlines; the grace timer
also stores the URL captured by its callback). -/
structure State where
  lastItemId : Option String
  lastFormUrl : Option String
  activeSince : Option Nat
  activeTimer : Option Nat
  iframeLoadTimer : Option (Nat × String)
  redirecting : Bool
  idleShown : Bool
  activeShown : Bool
  loadingShown : Bool
  frameShown : Bool
  redirectShown : Bool
  frameSrc : Option String
  srcWrites : Nat
  openFormHref : Option String
  navigated : Option String
  onloadArmed : Bool
deriving DecidableEq, Repr

/-- showIdle of the first script.js variant. -/
def showIdle (s : State) : State :=
  { s with
    activeTimer := none
    iframeLoadTimer := none
    lastItemId := none
    lastFormUrl := none
    activeSince := none
    redirecting := false
    frameSrc := none
    frameShown := false
    redirectShown := false
    loadingShown := false
    idleShown := true
    activeShown := false }

/-- showActive of the first script.js variant.  The same-session
branch returns with no change at all (in particular it does not
re-arm the inactivity timer). -/
def showActive (s : State) (formUrl itemId : String) (now : Nat) : State :=
  if s.lastItemId = some itemId ∧ s.lastFormUrl = some formUrl then
    s
  else
    { s with
      lastItemId := some itemId
      lastFormUrl := some formUrl
      activeSince := some now
      redirecting := false
      idleShown := false
      activeShown := true
      loadingShown := true
      redirectShown := false
      frameSrc := some formUrl
      srcWrites := s.srcWrites + 1
      frameShown := true
      iframeLoadTimer := some (now + IFRAME_LOAD_GRACE_MS, formUrl)
      onloadArmed := true
      activeTimer := some (now + ACTIVE_TIMEOUT_MS) }

/-- switchToRedirect: show the redirect fallback and navigate the
whole page to the form URL (window.location.href assignment). -/
def switchToRedirect (s : State) (formUrl : String) : State :=
  { s with
    redirecting := true
    frameShown := false
    loadingShown := false
    redirectShown := true
    openFormHref := some formUrl
    navigated := some formUrl }

/-- The grace timer firing at time now: consume the timeout and, if
no redirect happened yet, switch to redirect mode with the URL the
callback captured. -/
def graceFire (s : State) (now : Nat) : State :=
  match s.iframeLoadTimer with
  | some (d, u) =>
    if d = now then
      let s1 := { s with iframeLoadTimer := none }
      if s1.redirecting = false then switchToRedirect s1 u else s1
    else s
  | none => s

/-- The frame's load event: hide the loading layer and cancel the
grace timer (the handler is installed by showActive). -/
def onFrameLoad (s : State) : State :=
  if s.onloadArmed then
    { s with loadingShown := false, iframeLoadTimer := none }
  else s

/-- The inactivity timeout firing at time now: the one-shot timer is
consumed and its callback runs showIdle. -/
def fireInact (s : State) (now : Nat) : State :=
  if s.activeTimer = some now then
    showIdle { s with activeTimer := none }
  else s

/-- The body of the try block of pollLoop: non-success responses and
transport failures are errors (the code throws on the former), a
parsed record is dispatched to showIdle or showActive. -/
def pollBody (s : State) (o : FetchOutcome) (now : Nat) : Except Unit State :=
  match o with
  | .transportError => .error ()
  | .httpError _ => .error ()
  | .success none => .ok (showIdle s)
  | .success (some d) =>
    if d.active = true then
      let itemId := orDefault d.itemId "unknown"
      match d.formUrl with
      | some u =>
        if u = "" then .ok (showIdle s) else .ok (showActive s u itemId now)
      | none => .ok (showIdle s)
    else .ok (showIdle s)

/-- pollLoop: the try body with its catch handler, which falls back
to showIdle on any thrown error. -/
def pollLoop (s : State) (o : FetchOutcome) (now : Nat) : State :=
  match pollBody s o now with
  | .ok s1 => s1
  | .error _ => showIdle s

/-- External events the loop reacts to. -/
inductive Event where
  | poll (o : FetchOutcome) (now : Nat)
  | load
  | grace (now : Nat)
  | inact (now : Nat)

def step (s : State) : Event → State
  | .poll o now => pollLoop s o now
  | .load => onFrameLoad s
  | .grace now => graceFire s now
  | .inact now => fireInact s now

/-- The state object literal plus a DOM whose initial visibility
flags are unknown. -/
def blank (b1 b2 b3 b4 b5 : Bool) : State :=
  { lastItemId := none
    lastFormUrl := none
    activeSince := none
    activeTimer := none
    iframeLoadTimer := none
    redirecting := false
    idleShown := b1
    activeShown := b2
    loadingShown := b3
    frameShown := b4
    redirectShown := b5
    frameSrc := none
    srcWrites := 0
    openFormHref := none
    navigated := none
    onloadArmed := false }

/-- Startup: showIdle runs before the poll interval is installed and
before the first pollLoop response is processed. -/
def init (b1 b2 b3 b4 b5 : Bool) : State :=
  showIdle (blank b1 b2 b3 b4 b5)

inductive Reachable : State → Prop where
  | init (b1 b2 b3 b4 b5 : Bool) : Reachable (init b1 b2 b3 b4 b5)
  | step {s : State} (hs : Reachable s) (e : Event) : Reachable (step s e)

def displayState (s : State) : DisplayState :=
  if s.idleShown then .Idle
  else if s.loadingShown then .ActiveLoading
  else .ActiveLoaded

def sessionEmpty (s : State) : Prop :=
  s.lastItemId = none ∧ s.lastFormUrl = none

end ScriptA

namespace ScriptB

open Kiosk

def POLL_INTERVAL_MS : Nat := 1000
def ACTIVE_TIMEOUT_MS : Nat := 120000

/-- State of the iframe-only script.js variant. -/
structure State where
  lastItemId : Option String
  lastFormUrl : Option String
  activeTimer : Option Nat
  idleShown : Bool
  activeShown : Bool
  loadingShown : Bool
  frameShown : Bool
  frameSrc : Option String
  srcWrites : Nat
  onloadArmed : Bool
deriving DecidableEq, Repr

/-- resetActiveTimer: clear any pending inactivity timeout and arm a
fresh one. -/
def resetActiveTimer (s : State) (now : Nat) : State :=
  { s with activeTimer := some (now + ACTIVE_TIMEOUT_MS) }

/-- showIdle of the iframe-only script.js variant. -/
def showIdle (s : State) : State :=
  { s with
    activeTimer := none
    lastItemId := none
    lastFormUrl := none
    frameSrc := none
    frameShown := false
    loadingShown := false
    idleShown := true
    activeShown := false }

/-- showActive of the iframe-only script.js variant: the same-session
branch re-arms the inactivity timer and returns. -/
def showActive (s : State) (formUrl itemId : String) (now : Nat) : State :=
  if s.lastItemId = some itemId ∧ s.lastFormUrl = some formUrl then
    resetActiveTimer s now
  else
    let s1 := { s with
      lastItemId := some itemId
      lastFormUrl := some formUrl
      idleShown := false
      activeShown := true
      loadingShown := true
      onloadArmed := true
      frameSrc := some formUrl
      srcWrites := s.srcWrites + 1
      frameShown := true }
    resetActiveTimer s1 now

def onFrameLoad (s : State) : State :=
  if s.onloadArmed then { s with loadingShown := false } else s

def fireInact (s : State) (now : Nat) : State :=
  if s.activeTimer = some now then
    showIdle { s with activeTimer := none }
  else s

/-- Try body of pollOnce. -/
def pollBody (s : State) (o : FetchOutcome) (now : Nat) : Except Unit State :=
  match o with
  | .transportError => .error ()
  | .httpError _ => .error ()
  | .success none => .ok (showIdle s)
  | .success (some d) =>
    if d.active = true then
      let itemId := orDefault d.itemId "unknown"
      match d.formUrl with
      | some u =>
        if u = "" then .ok (showIdle s) else .ok (showActive s u itemId now)
      | none => .ok (showIdle s)
    else .ok (showIdle s)

/-- pollOnce: try body plus catch handler (showIdle). -/
def pollOnce (s : State) (o : FetchOutcome) (now : Nat) : State :=
  match pollBody s o now with
  | .ok s1 => s1
  | .error _ => showIdle s

def blank (b1 b2 b3 b4 : Bool) : State :=
  { lastItemId := none
    lastFormUrl := none
    activeTimer := none
    idleShown := b1
    activeShown := b2
    loadingShown := b3
    frameShown := b4
    frameSrc := none
    srcWrites := 0
    onloadArmed := false }

/-- Startup: showIdle before the interval is installed and before the
first response arrives. -/
def init (b1 b2 b3 b4 : Bool) : State :=
  showIdle (blank b1 b2 b3 b4)

def displayState (s : State) : DisplayState :=
  if s.idleShown then .Idle
  else if s.loadingShown then .ActiveLoading
  else .ActiveLoaded

def sessionEmpty (s : State) : Prop :=
  s.lastItemId = none ∧ s.lastFormUrl = none

end ScriptB

namespace PartOne

open Kiosk

def IDLE_POLL_MS : Nat := 1000
def ACTIVE_POLL_MS : Nat := 500
def ACTIVE_TIMEOUT_MS : Nat := 120000

/-- State of the part_001 variant.  pollTimer holds the interval of
the live setInterval when polling is running. -/
structure State where
  lastItemId : Option String
  lastFormUrl : Option String
  activeTimer : Option Nat
  pollTimer : Option Nat
  currentPollMs : Nat
  isActive : Bool
  idleShown : Bool
  activeShown : Bool
  loadingShown : Bool
  frameShown : Bool
  frameSrc : Option String
  srcWrites : Nat
  onloadArmed : Bool
deriving DecidableEq, Repr

/-- startPolling: clear the previous interval and install a new one. -/
def startPolling (s : State) (interval : Nat) : State :=
  { s with currentPollMs := interval, pollTimer := some interval }

def stopPolling (s : State) : State :=
  { s with pollTimer := none }

def resetActiveTimer (s : State) (now : Nat) : State :=
  { s with activeTimer := some (now + ACTIVE_TIMEOUT_MS) }

/-- showIdle of part_001: resets only when the state is active,
otherwise it just refreshes the badge. -/
def showIdle (s : State) : State :=
  if s.isActive = true then
    let s1 := { s with
      isActive := false
      lastItemId := none
      lastFormUrl := none
      activeTimer := none
      frameShown := false
      loadingShown := false
      idleShown := true
      activeShown := false }
    startPolling s1 IDLE_POLL_MS
  else s

/-- showActive of part_001: the formUrl may still be absent, in which
case the variant shows the loading layer without touching the session
(the waiting-for-url phase); with a new URL it loads the frame, and
the frame src is only written when it differs from the current one. -/
def showActive (s : State) (formUrl itemId : Option String) (now : Nat) : State :=
  let s0 := { s with isActive := true }
  let s1 :=
    match formUrl with
    | some u =>
      if u = "" then
        { s0 with idleShown := false, activeShown := true, loadingShown := true }
      else if s0.lastFormUrl = some u then
        s0
      else
        let a := { s0 with
          lastFormUrl := some u
          lastItemId := itemId
          idleShown := false
          activeShown := true
          loadingShown := true
          onloadArmed := true }
        let b := if a.frameSrc = some u then a
                 else { a with frameSrc := some u, srcWrites := a.srcWrites + 1 }
        { b with frameShown := true }
    | none =>
      { s0 with idleShown := false, activeShown := true, loadingShown := true }
  let s2 := resetActiveTimer s1 now
  if s2.currentPollMs = ACTIVE_POLL_MS then s2 else startPolling s2 ACTIVE_POLL_MS

def onFrameLoad (s : State) : State :=
  if s.onloadArmed then { s with loadingShown := false } else s

def fireInact (s : State) (now : Nat) : State :=
  if s.activeTimer = some now then
    showIdle { s with activeTimer := none }
  else s

/-- pollOnce of part_001: the catch handler only updates the badge,
so a thrown error leaves the state unchanged. -/
def pollOnce (s : State) (o : FetchOutcome) (now : Nat) : State :=
  match o with
  | .transportError => s
  | .httpError _ => s
  | .success none => showIdle s
  | .success (some d) =>
    if d.active = true then showActive s d.formUrl d.itemId now
    else showIdle s

inductive Event where
  | poll (o : FetchOutcome) (now : Nat)
  | load
  | inact (now : Nat)
  | visibility (hidden : Bool)

def step (s : State) : Event → State
  | .poll o now => pollOnce s o now
  | .load => onFrameLoad s
  | .inact now => fireInact s now
  | .visibility true => stopPolling s
  | .visibility false =>
    startPolling s (if s.isActive then ACTIVE_POLL_MS else IDLE_POLL_MS)

def blank (b1 b2 b3 b4 : Bool) : State :=
  { lastItemId := none
    lastFormUrl := none
    activeTimer := none
    pollTimer := none
    currentPollMs := IDLE_POLL_MS
    isActive := false
    idleShown := b1
    activeShown := b2
    loadingShown := b3
    frameShown := b4
    frameSrc := none
    srcWrites := 0
    onloadArmed := false }

/-- Startup of part_001: isActive is set to true so that the initial
showIdle performs a full reset, which also starts idle polling. -/
def init (b1 b2 b3 b4 : Bool) : State :=
  showIdle { blank b1 b2 b3 b4 with isActive := true }

inductive Reachable : State → Prop where
  | init (b1 b2 b3 b4 : Bool) : Reachable (init b1 b2 b3 b4)
  | step {s : State} (hs : Reachable s) (e : Event) : Reachable (step s e)

def displayState (s : State) : DisplayState :=
  if s.idleShown then .Idle
  else if s.loadingShown then .ActiveLoading
  else .ActiveLoaded

def sessionEmpty (s : State) : Prop :=
  s.lastItemId = none ∧ s.lastFormUrl = none

/-- Structural invariant of part_001 used by the claims: the idle
screen is shown exactly when the state is not active, and an inactive
state has an empty session and no pending inactivity timeout. -/
def Inv (s : State) : Prop :=
  s.idleShown = !s.isActive ∧
  (s.isActive = false →
    s.lastItemId = none ∧ s.lastFormUrl = none ∧ s.activeTimer = none)

end PartOne

namespace PartZero

open Kiosk

def IDLE_POLL_MS : Nat := 3000
def ACTIVE_POLL_MS : Nat := 500
def ACTIVE_TIMEOUT_MS : Nat := 120000

/-- State of the part_000 variant.  Live timers are modelled by two
instance tables: pollInsts holds the live setInterval instances
created by startPolling as (handle, interval) pairs, inactInsts holds
the live inactivity setTimeout instances as (handle, deadline) pairs.
Handles are drawn from the shared counter nextId, and clearing a
handle removes it from both tables, as in the browser's shared timer
handle namespace.  pollTimer and activeTimer are the handle fields of
the script's state object. -/
structure State where
  lastItemId : Option String
  lastFormUrl : Option String
  activeTimer : Option Nat
  pollTimer : Option Nat
  currentPollMs : Nat
  isActive : Bool
  pollInsts : List (Nat × Nat)
  inactInsts : List (Nat × Nat)
  nextId : Nat
  idleShown : Bool
  activeShown : Bool
  loadingShown : Bool
  frameShown : Bool
  frameSrc : Option String
  srcWrites : Nat
  onloadArmed : Bool
deriving DecidableEq, Repr

def removeId (h : Nat) (l : List (Nat × Nat)) : List (Nat × Nat) :=
  l.filter (fun p => p.fst != h)

/-- clearTimeout / clearInterval on an optional handle. -/
def clearTimer (h : Option Nat) (s : State) : State :=
  match h with
  | none => s
  | some x =>
    { s with pollInsts := removeId x s.pollInsts, inactInsts := removeId x s.inactInsts }

/-- startPolling: clear the previous interval (if any) and install a
new one at the given cadence. -/
def startPolling (s : State) (interval : Nat) : State :=
  let s1 := clearTimer s.pollTimer s
  { s1 with
    currentPollMs := interval
    pollInsts := s1.pollInsts ++ [(s1.nextId, interval)]
    pollTimer := some s1.nextId
    nextId := s1.nextId + 1 }

def stopPolling (s : State) : State :=
  let s1 := clearTimer s.pollTimer s
  { s1 with pollTimer := none }

/-- resetActiveTimer: clear the pending inactivity timeout (if any)
and arm a fresh one. -/
def resetActiveTimer (s : State) (now : Nat) : State :=
  let s1 := clearTimer s.activeTimer s
  { s1 with
    inactInsts := s1.inactInsts ++ [(s1.nextId, now + ACTIVE_TIMEOUT_MS)]
    activeTimer := some s1.nextId
    nextId := s1.nextId + 1 }

/-- showIdle of part_000: returns immediately when the state is
already inactive and the idle screen is visible; otherwise resets the
session, hides the frame without clearing its src (warm iframe), and
switches to the idle cadence. -/
def showIdle (s : State) : State :=
  if s.isActive = false ∧ s.idleShown = true then s
  else
    let s1 := { s with isActive := false, lastItemId := none, lastFormUrl := none }
    let s2 := clearTimer s1.activeTimer s1
    let s3 := { s2 with
      activeTimer := none
      frameShown := false
      loadingShown := false
      idleShown := true
      activeShown := false }
    startPolling s3 IDLE_POLL_MS

/-- showActive of part_000: a same-session refresh only re-arms the
inactivity timer; a session change updates the state, writes the
frame src only when it differs from the current one, re-arms the
inactivity timer, and switches to the fast cadence. -/
def showActive (s : State) (formUrl itemId : String) (now : Nat) : State :=
  if s.isActive = true ∧ s.lastItemId = some itemId ∧ s.lastFormUrl = some formUrl then
    resetActiveTimer s now
  else
    let s1 := { s with
      isActive := true
      lastItemId := some itemId
      lastFormUrl := some formUrl
      idleShown := false
      activeShown := true
      loadingShown := true
      onloadArmed := true }
    let s2 := if s1.frameSrc = some formUrl then s1
              else { s1 with frameSrc := some formUrl, srcWrites := s1.srcWrites + 1 }
    let s3 := { s2 with frameShown := true }
    let s4 := resetActiveTimer s3 now
    startPolling s4 ACTIVE_POLL_MS

def onFrameLoad (s : State) : State :=
  if s.onloadArmed then { s with loadingShown := false } else s

/-- The inactivity timeout instance (h, now) firing: the one-shot
instance is consumed and its callback runs showIdle. -/
def fireInact (s : State) (h : Nat) (now : Nat) : State :=
  if (h, now) ∈ s.inactInsts then
    showIdle { s with inactInsts := removeId h s.inactInsts }
  else s

/-- Try body of pollOnce of part_000. -/
def pollBody (s : State) (o : FetchOutcome) (now : Nat) : Except Unit State :=
  match o with
  | .transportError => .error ()
  | .httpError _ => .error ()
  | .success none => .ok (showIdle s)
  | .success (some d) =>
    if d.active = true then
      let itemId := orDefault d.itemId "unknown"
      match d.formUrl with
      | some u =>
        if u = "" then .ok (showIdle s) else .ok (showActive s u itemId now)
      | none => .ok (showIdle s)
    else .ok (showIdle s)

/-- pollOnce: try body plus catch handler (showIdle). -/
def pollOnce (s : State) (o : FetchOutcome) (now : Nat) : State :=
  match pollBody s o now with
  | .ok s1 => s1
  | .error _ => showIdle s

inductive Event where
  | poll (o : FetchOutcome) (now : Nat)
  | load
  | inact (h : Nat) (now : Nat)
  | visibility (hidden : Bool)

def step (s : State) : Event → State
  | .poll o now => pollOnce s o now
  | .load => onFrameLoad s
  | .inact h now => fireInact s h now
  | .visibility true => stopPolling s
  | .visibility false =>
    startPolling s (if s.isActive then ACTIVE_POLL_MS else IDLE_POLL_MS)

def blank (b1 b2 b3 b4 : Bool) : State :=
  { lastItemId := none
    lastFormUrl := none
    activeTimer := none
    pollTimer := none
    currentPollMs := IDLE_POLL_MS
    isActive := false
    pollInsts := []
    inactInsts := []
    nextId := 0
    idleShown := b1
    activeShown := b2
    loadingShown := b3
    frameShown := b4
    frameSrc := none
    srcWrites := 0
    onloadArmed := false }

/-- Startup of part_000: showIdle, then startPolling at the idle
cadence, before the first response is processed. -/
def init (b1 b2 b3 b4 : Bool) : State :=
  startPolling (showIdle (blank b1 b2 b3 b4)) IDLE_POLL_MS

inductive Reachable : State → Prop where
  | init (b1 b2 b3 b4 : Bool) : Reachable (init b1 b2 b3 b4)
  | step {s : State} (hs : Reachable s) (e : Event) : Reachable (step s e)

def displayState (s : State) : DisplayState :=
  if s.idleShown then .Idle
  else if s.loadingShown then .ActiveLoading
  else .ActiveLoaded

def sessionEmpty (s : State) : Prop :=
  s.lastItemId = none ∧ s.lastFormUrl = none

/-- Timer-table coherence of part_000: handles are below the counter
and pairwise distinct across both tables; the poll handle points to
the unique live interval instance and the inactivity handle to the
unique live timeout instance. -/
def Core (s : State) : Prop :=
  (∀ p ∈ s.pollInsts, p.fst < s.nextId) ∧
  (∀ p ∈ s.inactInsts, p.fst < s.nextId) ∧
  ((s.pollInsts ++ s.inactInsts).map Prod.fst).Nodup ∧
  (match s.pollTimer with
   | none => s.pollInsts = []
   | some h => ∃ v, s.pollInsts = [(h, v)]) ∧
  (match s.activeTimer with
   | none => s.inactInsts = []
   | some h => ∃ d, s.inactInsts = [(h, d)])

/-- Every live poll interval runs at the cadence dictated by the
current activity flag. -/
def Cadence (s : State) : Prop :=
  ∀ p ∈ s.pollInsts, p.snd = (if s.isActive then ACTIVE_POLL_MS else IDLE_POLL_MS)

/-- Structural invariant of part_000: timer-table coherence, correct
cadence, and the session/display discipline (an inactive state has an
empty session, no inactivity timer and shows the idle screen; an
active one has a non-empty session). -/
def Inv (s : State) : Prop :=
  Core s ∧ Cadence s ∧
  (s.isActive = false → s.activeTimer = none ∧ s.lastItemId = none ∧ s.lastFormUrl = none) ∧
  (s.idleShown = !s.isActive) ∧
  (s.isActive = true → s.lastItemId ≠ none ∧ s.lastFormUrl ≠ none)

end PartZero

namespace Kiosk

/-- The active record of the spec scenario: item 42 with its form. -/
def rec42 : StatusRecord :=
  { active := true, itemId := some "42", formUrl := some "https://x/f" }

/-- A second active record: item 43 with another form. -/
def rec43 : StatusRecord :=
  { active := true, itemId := some "43", formUrl := some "https://x/g" }

/-- An inactive record. -/
def recOff : StatusRecord := { active := false, itemId := none, formUrl := none }

/-- An active record whose formUrl is still absent. -/
def recNoUrl : StatusRecord :=
  { active := true, itemId := some "42", formUrl := none }

/-- The third error class of the spec: a well-formed record that is
active but carries no (truthy) formUrl. -/
def noUrlOutcome (o : FetchOutcome) : Prop :=
  ∃ d, o = .success (some d) ∧ d.active = true ∧ truthyStr d.formUrl = false

end Kiosk

namespace ScriptA

/-- The observable embedding surface of the first script.js variant:
region visibility, the frame src, and the count of src writes. -/
def surface (s : State) :
    Bool × Bool × Bool × Bool × Bool × Option String × Nat :=
  (s.idleShown, s.activeShown, s.loadingShown, s.frameShown, s.redirectShown,
   s.frameSrc, s.srcWrites)

/-- The session/display invariant claimed by the spec, for this
variant: the idle screen shows exactly when the session is empty. -/
def SessionInv (s : State) : Prop :=
  (s.idleShown = true → s.lastItemId = none ∧ s.lastFormUrl = none) ∧
  (s.idleShown = false → s.lastItemId ≠ none ∧ s.lastFormUrl ≠ none)

/-- The startup state. -/
def exIdle : State := init true false false false false

/-- The state after one poll cycle that activates item 42. -/
def exActive : State := pollLoop exIdle (.success (some Kiosk.rec42)) 0

end ScriptA

namespace ScriptB

/-- The observable embedding surface of the iframe-only script.js
variant. -/
def surface (s : State) : Bool × Bool × Bool × Bool × Option String × Nat :=
  (s.idleShown, s.activeShown, s.loadingShown, s.frameShown, s.frameSrc, s.srcWrites)

def exIdle : State := init true false false false

def exActive : State := pollOnce exIdle (.success (some Kiosk.rec42)) 0

end ScriptB

namespace PartZero

/-- The observable embedding surface of part_000. -/
def surface (s : State) : Bool × Bool × Bool × Bool × Option String × Nat :=
  (s.idleShown, s.activeShown, s.loadingShown, s.frameShown, s.frameSrc, s.srcWrites)

def exIdle : State := init true false false false

def exActive : State := step exIdle (.poll (.success (some Kiosk.rec42)) 1)

/-- Idle again after the active session, with the warm iframe still
holding the form URL (showIdle does not clear the src). -/
def exIdleWarm : State := step exActive (.poll (.success (some Kiosk.recOff)) 5)

end PartZero

namespace PartOne

/-- The observable embedding surface of part_001. -/
def surface (s : State) : Bool × Bool × Bool × Bool × Option String × Nat :=
  (s.idleShown, s.activeShown, s.loadingShown, s.frameShown, s.frameSrc, s.srcWrites)

def exIdle : State := init true false false false

def exActive : State := step exIdle (.poll (.success (some Kiosk.rec42)) 0)

/-- The waiting-for-url state: active record with no formUrl. -/
def exWaiting : State := step exIdle (.poll (.success (some Kiosk.recNoUrl)) 0)

end PartOne

namespace ScriptB

open Kiosk

/-- External events of the iframe-only script.js variant's loop. -/
inductive Event where
  | poll (o : FetchOutcome) (now : Nat)
  | load
  | inact (now : Nat)

def step (s : State) : Event → State
  | .poll o now => pollOnce s o now
  | .load => onFrameLoad s
  | .inact now => fireInact s now

inductive Reachable : State → Prop where
  | init (b1 b2 b3 b4 : Bool) : Reachable (init b1 b2 b3 b4)
  | step {s : State} (hs : Reachable s) (e : Event) : Reachable (step s e)

end ScriptB


namespace PartOne

theorem invOne_init (b1 b2 b3 b4 : Bool) : Inv (init b1 b2 b3 b4) := by
  simp [init, blank, showIdle, startPolling, Inv]

theorem invOne_showIdle (s : State) (h : Inv s) : Inv (showIdle s) := by
  unfold showIdle startPolling
  split
  · simp [Inv]
  · exact h

theorem invOne_showActive (s : State) (fu ii : Option String) (now : Nat) (h : Inv s) :
    Inv (showActive s fu ii now) := by
  obtain ⟨h1, h2⟩ := h
  rcases fu with _ | u
  · by_cases hc : s.currentPollMs = ACTIVE_POLL_MS <;>
      simp [showActive, resetActiveTimer, startPolling, Inv, hc]
  · by_cases hu : u = "" <;>
      by_cases hsame : s.lastFormUrl = some u <;>
      by_cases hfr : s.frameSrc = some u <;>
      by_cases hc : s.currentPollMs = ACTIVE_POLL_MS <;>
      cases hA : s.isActive <;>
      simp_all [showActive, resetActiveTimer, startPolling, Inv]

theorem invOne_step (s : State) (e : Event) (h : Inv s) : Inv (step s e) := by
  cases e with
  | poll o now =>
    cases o with
    | transportError => exact h
    | httpError k => exact h
    | success data =>
      cases data with
      | none => exact invOne_showIdle s h
      | some d =>
        by_cases hd : d.active = true
        · simpa [step, pollOnce, hd] using invOne_showActive s d.formUrl d.itemId now h
        · simpa [step, pollOnce, hd] using invOne_showIdle s h
  | load =>
    obtain ⟨h1, h2⟩ := h
    simp only [step]
    unfold onFrameLoad
    split
    · exact ⟨h1, fun hf => h2 hf⟩
    · exact ⟨h1, h2⟩
  | inact now =>
    obtain ⟨h1, h2⟩ := h
    simp only [step]
    unfold fireInact
    split
    · exact invOne_showIdle _ ⟨h1, fun hf => ⟨(h2 hf).1, (h2 hf).2.1, rfl⟩⟩
    · exact ⟨h1, h2⟩
  | visibility hidden =>
    obtain ⟨h1, h2⟩ := h
    cases hidden <;> simp only [step, stopPolling, startPolling] <;>
      exact ⟨h1, fun hf => ⟨(h2 hf).1, (h2 hf).2.1, (h2 hf).2.2⟩⟩

theorem reachableOne_inv {s : State} (h : Reachable s) : Inv s := by
  induction h with
  | init b1 b2 b3 b4 => exact invOne_init b1 b2 b3 b4
  | step hs e ih => exact invOne_step _ e ih

end PartOne

namespace PartZero

theorem removeId_self (h : Nat) (v : Nat) : removeId h [(h, v)] = [] := by
  simp [removeId]

theorem removeId_other (h : Nat) (l : List (Nat × Nat)) (hl : ∀ p ∈ l, p.fst ≠ h) :
    removeId h l = l := by
  rw [removeId, List.filter_eq_self]
  intro p hp
  simpa using hl p hp

theorem clearInact_spec (s : State) (h : Core s) :
    clearTimer s.activeTimer s = { s with inactInsts := [] } := by
  obtain ⟨hp, hi, hn, hP, hA⟩ := h
  cases hat : s.activeTimer with
  | none =>
    rw [hat] at hA
    cases s
    simp_all [clearTimer]
  | some a =>
    rw [hat] at hA
    obtain ⟨d, hd⟩ := hA
    have hdisj : ∀ p ∈ s.pollInsts, p.fst ≠ a := by
      intro p hpm
      rw [List.map_append, List.nodup_append] at hn
      have hnot := hn.2.2 (List.mem_map_of_mem Prod.fst hpm)
      rw [hd] at hnot
      simpa using hnot
    have h1 : removeId a s.pollInsts = s.pollInsts := removeId_other a s.pollInsts hdisj
    have h2 : removeId a s.inactInsts = [] := by rw [hd]; exact removeId_self a d
    cases s
    simp_all [clearTimer]

theorem clearPoll_spec (s : State) (h : Core s) :
    clearTimer s.pollTimer s = { s with pollInsts := [] } := by
  obtain ⟨hp, hi, hn, hP, hA⟩ := h
  cases hpt : s.pollTimer with
  | none =>
    rw [hpt] at hP
    cases s
    simp_all [clearTimer]
  | some a =>
    rw [hpt] at hP
    obtain ⟨v, hv⟩ := hP
    have hdisj : ∀ p ∈ s.inactInsts, p.fst ≠ a := by
      intro p hpm hcon
      rw [List.map_append, List.nodup_append] at hn
      have hmem : a ∈ s.pollInsts.map Prod.fst := by rw [hv]; simp
      have hnot : a ∉ s.inactInsts.map Prod.fst := hn.2.2 hmem
      exact hnot (hcon ▸ List.mem_map_of_mem Prod.fst hpm)
    have h1 : removeId a s.inactInsts = s.inactInsts := removeId_other a s.inactInsts hdisj
    have h2 : removeId a s.pollInsts = [] := by rw [hv]; exact removeId_self a v
    cases s
    simp_all [clearTimer]

theorem startPolling_spec (s : State) (ivl : Nat) (h : Core s) :
    startPolling s ivl =
      { s with currentPollMs := ivl, pollInsts := [(s.nextId, ivl)],
               pollTimer := some s.nextId, nextId := s.nextId + 1 } := by
  unfold startPolling
  rw [clearPoll_spec s h]
  try simp

theorem stopPolling_spec (s : State) (h : Core s) :
    stopPolling s = { s with pollInsts := [], pollTimer := none } := by
  unfold stopPolling
  rw [clearPoll_spec s h]
  try simp

theorem resetActiveTimer_spec (s : State) (now : Nat) (h : Core s) :
    resetActiveTimer s now =
      { s with inactInsts := [(s.nextId, now + ACTIVE_TIMEOUT_MS)],
               activeTimer := some s.nextId, nextId := s.nextId + 1 } := by
  unfold resetActiveTimer
  rw [clearInact_spec s h]
  try simp

end PartZero

namespace PartZero

@[simp] theorem clearTimer_isActive (h : Option Nat) (s : State) :
    (clearTimer h s).isActive = s.isActive := by cases h <;> rfl

@[simp] theorem clearTimer_idleShown (h : Option Nat) (s : State) :
    (clearTimer h s).idleShown = s.idleShown := by cases h <;> rfl

@[simp] theorem clearTimer_lastItemId (h : Option Nat) (s : State) :
    (clearTimer h s).lastItemId = s.lastItemId := by cases h <;> rfl

@[simp] theorem clearTimer_lastFormUrl (h : Option Nat) (s : State) :
    (clearTimer h s).lastFormUrl = s.lastFormUrl := by cases h <;> rfl

@[simp] theorem clearTimer_pollTimer (h : Option Nat) (s : State) :
    (clearTimer h s).pollTimer = s.pollTimer := by cases h <;> rfl

@[simp] theorem clearTimer_activeTimer (h : Option Nat) (s : State) :
    (clearTimer h s).activeTimer = s.activeTimer := by cases h <;> rfl

@[simp] theorem clearTimer_nextId (h : Option Nat) (s : State) :
    (clearTimer h s).nextId = s.nextId := by cases h <;> rfl

@[simp] theorem clearTimer_currentPollMs (h : Option Nat) (s : State) :
    (clearTimer h s).currentPollMs = s.currentPollMs := by cases h <;> rfl

@[simp] theorem clearTimer_frameSrc (h : Option Nat) (s : State) :
    (clearTimer h s).frameSrc = s.frameSrc := by cases h <;> rfl

@[simp] theorem clearTimer_srcWrites (h : Option Nat) (s : State) :
    (clearTimer h s).srcWrites = s.srcWrites := by cases h <;> rfl

@[simp] theorem clearTimer_loadingShown (h : Option Nat) (s : State) :
    (clearTimer h s).loadingShown = s.loadingShown := by cases h <;> rfl

@[simp] theorem clearTimer_activeShown (h : Option Nat) (s : State) :
    (clearTimer h s).activeShown = s.activeShown := by cases h <;> rfl

@[simp] theorem clearTimer_frameShown (h : Option Nat) (s : State) :
    (clearTimer h s).frameShown = s.frameShown := by cases h <;> rfl

@[simp] theorem clearTimer_onloadArmed (h : Option Nat) (s : State) :
    (clearTimer h s).onloadArmed = s.onloadArmed := by cases h <;> rfl

theorem nodup_left {l1 l2 : List (Nat × Nat)}
    (h : ((l1 ++ l2).map Prod.fst).Nodup) : (l1.map Prod.fst).Nodup := by
  rw [List.map_append, List.nodup_append] at h
  exact h.1

theorem nodup_right {l1 l2 : List (Nat × Nat)}
    (h : ((l1 ++ l2).map Prod.fst).Nodup) : (l2.map Prod.fst).Nodup := by
  rw [List.map_append, List.nodup_append] at h
  exact h.2.1

theorem nodup_snoc_fresh (l : List (Nat × Nat)) (n v : Nat)
    (hl : (l.map Prod.fst).Nodup) (hf : ∀ p ∈ l, p.fst < n) :
    ((l ++ [(n, v)]).map Prod.fst).Nodup := by
  rw [List.map_append, List.nodup_append]
  refine ⟨hl, by simp, ?_⟩
  intro x hx
  obtain ⟨p, hp, rfl⟩ := List.mem_map.mp hx
  have := hf p hp
  simp only [List.map_cons, List.map_nil, List.mem_singleton]
  omega

theorem nodup_cons_fresh (l : List (Nat × Nat)) (n v : Nat)
    (hl : (l.map Prod.fst).Nodup) (hf : ∀ p ∈ l, p.fst < n) :
    ((([(n, v)] : List (Nat × Nat)) ++ l).map Prod.fst).Nodup := by
  rw [List.map_append, List.nodup_append]
  refine ⟨by simp, hl, ?_⟩
  intro x hx
  simp only [List.map_cons, List.map_nil, List.mem_singleton] at hx
  subst hx
  intro hcon
  obtain ⟨p, hp, hpe⟩ := List.mem_map.mp hcon
  have := hf p hp
  omega

/-- Inv is established by any startPolling call at the cadence that
matches the activity flag, on a state with a coherent timer table and
a consistent session/display part. -/
theorem inv_startPolling (t : State) (hc : Core t)
    (hD : t.idleShown = !t.isActive)
    (hS : t.isActive = false → t.activeTimer = none ∧ t.lastItemId = none ∧ t.lastFormUrl = none)
    (hN : t.isActive = true → t.lastItemId ≠ none ∧ t.lastFormUrl ≠ none)
    (ivl : Nat) (hivl : ivl = if t.isActive then ACTIVE_POLL_MS else IDLE_POLL_MS) :
    Inv (startPolling t ivl) := by
  rw [startPolling_spec t ivl hc]
  obtain ⟨hp, hi2, hnd, hP, hA⟩ := hc
  refine ⟨⟨?_, ?_, ?_, ?_, ?_⟩, ?_, ?_, ?_, ?_⟩ <;> dsimp only
  · intro p hm
    simp only [List.mem_singleton] at hm
    subst hm
    omega
  · intro p hm
    have := hi2 p hm
    omega
  · exact nodup_cons_fresh t.inactInsts t.nextId ivl (nodup_right hnd) hi2
  · exact ⟨ivl, rfl⟩
  · exact hA
  · intro p hm
    simp only [List.mem_singleton] at hm
    subst hm
    exact hivl
  · exact hS
  · exact hD
  · exact hN

/-- A coherent timer table survives resetActiveTimer. -/
theorem core_resetActiveTimer (s : State) (now : Nat) (h : Core s) :
    Core (resetActiveTimer s now) := by
  rw [resetActiveTimer_spec s now h]
  obtain ⟨hp, hi2, hnd, hP, hA⟩ := h
  refine ⟨?_, ?_, ?_, ?_, ?_⟩ <;> dsimp only
  · intro p hm
    have := hp p hm
    omega
  · intro p hm
    simp only [List.mem_singleton] at hm
    subst hm
    omega
  · exact nodup_snoc_fresh s.pollInsts s.nextId (now + ACTIVE_TIMEOUT_MS) (nodup_left hnd) hp
  · exact hP
  · exact ⟨now + ACTIVE_TIMEOUT_MS, rfl⟩

end PartZero

namespace PartZero

@[simp] theorem startPolling_isActive (s : State) (v : Nat) :
    (startPolling s v).isActive = s.isActive := by unfold startPolling; simp

@[simp] theorem startPolling_idleShown (s : State) (v : Nat) :
    (startPolling s v).idleShown = s.idleShown := by unfold startPolling; simp

@[simp] theorem startPolling_lastItemId (s : State) (v : Nat) :
    (startPolling s v).lastItemId = s.lastItemId := by unfold startPolling; simp

@[simp] theorem startPolling_lastFormUrl (s : State) (v : Nat) :
    (startPolling s v).lastFormUrl = s.lastFormUrl := by unfold startPolling; simp

@[simp] theorem startPolling_activeTimer (s : State) (v : Nat) :
    (startPolling s v).activeTimer = s.activeTimer := by unfold startPolling; simp

@[simp] theorem startPolling_pollTimer (s : State) (v : Nat) :
    (startPolling s v).pollTimer = some s.nextId := by unfold startPolling; simp

@[simp] theorem startPolling_currentPollMs (s : State) (v : Nat) :
    (startPolling s v).currentPollMs = v := by unfold startPolling; simp

@[simp] theorem startPolling_frameSrc (s : State) (v : Nat) :
    (startPolling s v).frameSrc = s.frameSrc := by unfold startPolling; simp

@[simp] theorem startPolling_srcWrites (s : State) (v : Nat) :
    (startPolling s v).srcWrites = s.srcWrites := by unfold startPolling; simp

@[simp] theorem startPolling_loadingShown (s : State) (v : Nat) :
    (startPolling s v).loadingShown = s.loadingShown := by unfold startPolling; simp

@[simp] theorem startPolling_activeShown (s : State) (v : Nat) :
    (startPolling s v).activeShown = s.activeShown := by unfold startPolling; simp

@[simp] theorem startPolling_frameShown (s : State) (v : Nat) :
    (startPolling s v).frameShown = s.frameShown := by unfold startPolling; simp

@[simp] theorem startPolling_onloadArmed (s : State) (v : Nat) :
    (startPolling s v).onloadArmed = s.onloadArmed := by unfold startPolling; simp

@[simp] theorem resetActiveTimer_isActive (s : State) (now : Nat) :
    (resetActiveTimer s now).isActive = s.isActive := by unfold resetActiveTimer; simp

@[simp] theorem resetActiveTimer_idleShown (s : State) (now : Nat) :
    (resetActiveTimer s now).idleShown = s.idleShown := by unfold resetActiveTimer; simp

@[simp] theorem resetActiveTimer_lastItemId (s : State) (now : Nat) :
    (resetActiveTimer s now).lastItemId = s.lastItemId := by unfold resetActiveTimer; simp

@[simp] theorem resetActiveTimer_lastFormUrl (s : State) (now : Nat) :
    (resetActiveTimer s now).lastFormUrl = s.lastFormUrl := by unfold resetActiveTimer; simp

@[simp] theorem resetActiveTimer_activeTimer (s : State) (now : Nat) :
    (resetActiveTimer s now).activeTimer = some s.nextId := by unfold resetActiveTimer; simp

@[simp] theorem resetActiveTimer_pollTimer (s : State) (now : Nat) :
    (resetActiveTimer s now).pollTimer = s.pollTimer := by unfold resetActiveTimer; simp

@[simp] theorem resetActiveTimer_currentPollMs (s : State) (now : Nat) :
    (resetActiveTimer s now).currentPollMs = s.currentPollMs := by unfold resetActiveTimer; simp

@[simp] theorem resetActiveTimer_frameSrc (s : State) (now : Nat) :
    (resetActiveTimer s now).frameSrc = s.frameSrc := by unfold resetActiveTimer; simp

@[simp] theorem resetActiveTimer_srcWrites (s : State) (now : Nat) :
    (resetActiveTimer s now).srcWrites = s.srcWrites := by unfold resetActiveTimer; simp

@[simp] theorem resetActiveTimer_loadingShown (s : State) (now : Nat) :
    (resetActiveTimer s now).loadingShown = s.loadingShown := by unfold resetActiveTimer; simp

@[simp] theorem resetActiveTimer_frameShown (s : State) (now : Nat) :
    (resetActiveTimer s now).frameShown = s.frameShown := by unfold resetActiveTimer; simp

@[simp] theorem resetActiveTimer_activeShown (s : State) (now : Nat) :
    (resetActiveTimer s now).activeShown = s.activeShown := by unfold resetActiveTimer; simp

@[simp] theorem resetActiveTimer_onloadArmed (s : State) (now : Nat) :
    (resetActiveTimer s now).onloadArmed = s.onloadArmed := by unfold resetActiveTimer; simp

theorem poll_ne_of_nodup {s : State}
    (hnd : ((s.pollInsts ++ s.inactInsts).map Prod.fst).Nodup)
    {a d : Nat} (hd : s.inactInsts = [(a, d)]) :
    ∀ p ∈ s.pollInsts, p.fst ≠ a := by
  intro p hpm
  rw [List.map_append, List.nodup_append] at hnd
  have hnot := hnd.2.2 (List.mem_map_of_mem Prod.fst hpm)
  rw [hd] at hnot
  simpa using hnot

/-- showIdle on any active state with a coherent poll table and a
clearable inactivity handle establishes the invariant. -/
theorem inv_showIdle_active (t : State) (hact : t.isActive = true)
    (hp : ∀ p ∈ t.pollInsts, p.fst < t.nextId)
    (hndp : (t.pollInsts.map Prod.fst).Nodup)
    (hP : match t.pollTimer with
          | none => t.pollInsts = []
          | some h => ∃ v, t.pollInsts = [(h, v)])
    (H : (t.activeTimer = none ∧ t.inactInsts = []) ∨
         (∃ a, t.activeTimer = some a ∧ (∀ p ∈ t.pollInsts, p.fst ≠ a) ∧
           removeId a t.inactInsts = [])) :
    Inv (showIdle t) := by
  unfold showIdle
  rw [if_neg (by simp [hact])]
  try dsimp only
  rcases H with ⟨hat, hii⟩ | ⟨a, hat, hdisj, hrm⟩
  · rw [hat]
    simp only [clearTimer]
    try dsimp only
    apply inv_startPolling
    · exact ⟨hp, by dsimp only; rw [hii]; simp,
        by dsimp only; rw [hii, List.append_nil]; exact hndp, hP, hii⟩
    · rfl
    · intro _; exact ⟨rfl, rfl, rfl⟩
    · intro hcon; exact Bool.noConfusion hcon
    · rfl
  · rw [hat]
    simp only [clearTimer]
    try dsimp only
    rw [removeId_other a t.pollInsts hdisj, hrm]
    apply inv_startPolling
    · exact ⟨hp, by simp, by dsimp only; rw [List.append_nil]; exact hndp, hP, rfl⟩
    · rfl
    · intro _; exact ⟨rfl, rfl, rfl⟩
    · intro hcon; exact Bool.noConfusion hcon
    · rfl

end PartZero

namespace PartZero

theorem invZero_showIdle (s : State) (h : Inv s) : Inv (showIdle s) := by
  obtain ⟨⟨hp, hi2, hnd, hP, hA⟩, hC, hS, hD, hN⟩ := h
  cases hAv : s.isActive with
  | false =>
    have hsh : s.idleShown = true := by rw [hD, hAv]; rfl
    unfold showIdle
    rw [if_pos ⟨hAv, hsh⟩]
    exact ⟨⟨hp, hi2, hnd, hP, hA⟩, hC, hS, hD, hN⟩
  | true =>
    apply inv_showIdle_active s hAv hp (nodup_left hnd) hP
    cases hat : s.activeTimer with
    | none =>
      rw [hat] at hA
      exact Or.inl ⟨rfl, hA⟩
    | some a =>
      rw [hat] at hA
      obtain ⟨d, hd⟩ := hA
      exact Or.inr ⟨a, rfl, poll_ne_of_nodup hnd hd,
        by rw [hd]; exact removeId_self a d⟩

theorem inv_stopPolling (s : State) (h : Inv s) : Inv (stopPolling s) := by
  obtain ⟨hcore, hC, hS, hD, hN⟩ := h
  rw [stopPolling_spec s hcore]
  obtain ⟨hp, hi2, hnd, hP, hA⟩ := hcore
  exact ⟨⟨by simp, hi2, by simpa using nodup_right hnd, rfl, hA⟩,
    by intro p hm; simp at hm, hS, hD, hN⟩

theorem inv_resetActiveTimer (s : State) (h : Inv s) (hact : s.isActive = true)
    (now : Nat) : Inv (resetActiveTimer s now) := by
  obtain ⟨hcore, hC, hS, hD, hN⟩ := h
  have hc2 := core_resetActiveTimer s now hcore
  refine ⟨hc2, ?_, ?_, ?_, ?_⟩
  · intro p hm
    rw [resetActiveTimer_spec s now hcore] at hm ⊢
    exact hC p hm
  · intro hf
    simp only [resetActiveTimer_isActive] at hf
    rw [hact] at hf
    exact Bool.noConfusion hf
  · simp only [resetActiveTimer_idleShown, resetActiveTimer_isActive]
    exact hD
  · intro _
    simp only [resetActiveTimer_lastItemId, resetActiveTimer_lastFormUrl]
    exact hN hact

end PartZero

namespace PartZero

theorem invZero_showActive (s : State) (u i : String) (now : Nat) (h : Inv s) :
    Inv (showActive s u i now) := by
  obtain ⟨hcore, hC, hS, hD, hN⟩ := h
  unfold showActive
  split
  · rename_i hg
    exact inv_resetActiveTimer s ⟨hcore, hC, hS, hD, hN⟩ hg.1 now
  · try dsimp only
    by_cases hfr : s.frameSrc = some u
    · rw [if_pos hfr]
      have hc3 : Core { s with
          isActive := true, lastItemId := some i, lastFormUrl := some u,
          idleShown := false, activeShown := true, loadingShown := true,
          onloadArmed := true, frameShown := true } := by
        obtain ⟨hp, hi2, hnd, hP, hA⟩ := hcore
        exact ⟨hp, hi2, hnd, hP, hA⟩
      apply inv_startPolling _ (core_resetActiveTimer _ now hc3)
      · simp
      · simp
      · simp
      · simp
    · rw [if_neg hfr]
      have hc3 : Core { s with
          isActive := true, lastItemId := some i, lastFormUrl := some u,
          idleShown := false, activeShown := true, loadingShown := true,
          onloadArmed := true, frameSrc := some u, srcWrites := s.srcWrites + 1,
          frameShown := true } := by
        obtain ⟨hp, hi2, hnd, hP, hA⟩ := hcore
        exact ⟨hp, hi2, hnd, hP, hA⟩
      apply inv_startPolling _ (core_resetActiveTimer _ now hc3)
      · simp
      · simp
      · simp
      · simp

end PartZero

namespace PartZero

open Kiosk

theorem inv_fireInact (s : State) (hh now : Nat) (h : Inv s) :
    Inv (fireInact s hh now) := by
  obtain ⟨⟨hp, hi2, hnd, hP, hA⟩, hC, hS, hD, hN⟩ := h
  unfold fireInact
  split
  · rename_i hmem
    cases hat : s.activeTimer with
    | none =>
      rw [hat] at hA
      rw [hA] at hmem
      simp at hmem
    | some a =>
      rw [hat] at hA
      obtain ⟨d, hd⟩ := hA
      rw [hd] at hmem
      simp only [List.mem_singleton, Prod.mk.injEq] at hmem
      obtain ⟨rfl, rfl⟩ := hmem
      have hact : s.isActive = true := by
        cases hAv : s.isActive
        · have h0 := (hS hAv).1
          rw [h0] at hat
          exact Option.noConfusion hat
        · rfl
      rw [hd, removeId_self]
      apply inv_showIdle_active
      · exact hact
      · exact hp
      · exact nodup_left hnd
      · exact hP
      · exact Or.inr ⟨hh, rfl, poll_ne_of_nodup hnd hd, rfl⟩
  · exact ⟨⟨hp, hi2, hnd, hP, hA⟩, hC, hS, hD, hN⟩

theorem inv_onLoad (s : State) (h : Inv s) : Inv (onFrameLoad s) := by
  obtain ⟨⟨hp, hi2, hnd, hP, hA⟩, hC, hS, hD, hN⟩ := h
  unfold onFrameLoad
  split
  · exact ⟨⟨hp, hi2, hnd, hP, hA⟩, hC, hS, hD, hN⟩
  · exact ⟨⟨hp, hi2, hnd, hP, hA⟩, hC, hS, hD, hN⟩

theorem inv_pollOnce (s : State) (o : FetchOutcome) (now : Nat) (h : Inv s) :
    Inv (pollOnce s o now) := by
  cases o with
  | transportError => exact invZero_showIdle s h
  | httpError k => exact invZero_showIdle s h
  | success data =>
    cases data with
    | none => exact invZero_showIdle s h
    | some d =>
      by_cases hd : d.active = true
      · cases hfu : d.formUrl with
        | none => simpa [pollOnce, pollBody, hd, hfu] using invZero_showIdle s h
        | some u =>
          by_cases hu : u = ""
          · simpa [pollOnce, pollBody, hd, hfu, hu] using invZero_showIdle s h
          · simpa [pollOnce, pollBody, hd, hfu, hu] using
              invZero_showActive s u (orDefault d.itemId "unknown") now h
      · simpa [pollOnce, pollBody, hd] using invZero_showIdle s h

theorem invZero_step (s : State) (e : Event) (h : Inv s) : Inv (step s e) := by
  cases e with
  | poll o now => exact inv_pollOnce s o now h
  | load => exact inv_onLoad s h
  | inact hh now => exact inv_fireInact s hh now h
  | visibility hidden =>
    cases hidden with
    | true => exact inv_stopPolling s h
    | false =>
      obtain ⟨hcore, hC, hS, hD, hN⟩ := h
      exact inv_startPolling s hcore hD hS hN _ rfl

theorem invZero_init (b1 b2 b3 b4 : Bool) : Inv (init b1 b2 b3 b4) := by
  cases b1 <;>
    simp [init, blank, showIdle, startPolling, clearTimer, removeId,
      Inv, Core, Cadence]

theorem reachableZero_inv {s : State} (h : Reachable s) : Inv s := by
  induction h with
  | init b1 b2 b3 b4 => exact invZero_init b1 b2 b3 b4
  | step hs e ih => exact invZero_step _ e ih

end PartZero

namespace ScriptA

open Kiosk

theorem sessionInv_showIdle (s : State) : SessionInv (showIdle s) :=
  ⟨fun _ => ⟨rfl, rfl⟩, fun hc => Bool.noConfusion hc⟩

theorem sessionInv_showActive (s : State) (u i : String) (now : Nat)
    (h : SessionInv s) : SessionInv (showActive s u i now) := by
  unfold showActive
  split
  · exact h
  · exact ⟨fun hc => Bool.noConfusion hc, fun _ => by simp⟩

theorem sessionInv_pollLoop (s : State) (o : FetchOutcome) (now : Nat)
    (h : SessionInv s) : SessionInv (pollLoop s o now) := by
  cases o with
  | transportError => exact sessionInv_showIdle s
  | httpError k => exact sessionInv_showIdle s
  | success data =>
    cases data with
    | none => exact sessionInv_showIdle s
    | some d =>
      by_cases hd : d.active = true
      · cases hfu : d.formUrl with
        | none => simpa [pollLoop, pollBody, hd, hfu] using sessionInv_showIdle s
        | some u =>
          by_cases hu : u = ""
          · simpa [pollLoop, pollBody, hd, hfu, hu] using sessionInv_showIdle s
          · simpa [pollLoop, pollBody, hd, hfu, hu] using
              sessionInv_showActive s u (orDefault d.itemId "unknown") now h
      · simpa [pollLoop, pollBody, hd] using sessionInv_showIdle s

theorem sessionInv_step (s : State) (e : Event) (h : SessionInv s) :
    SessionInv (step s e) := by
  cases e with
  | poll o now => exact sessionInv_pollLoop s o now h
  | load =>
    obtain ⟨h1, h2⟩ := h
    simp only [step]
    unfold onFrameLoad
    split
    · exact ⟨fun hf => h1 hf, fun hf => h2 hf⟩
    · exact ⟨h1, h2⟩
  | grace now =>
    obtain ⟨h1, h2⟩ := h
    simp only [step]
    unfold graceFire switchToRedirect
    split
    · split
      · dsimp only
        split
        · exact ⟨fun hf => h1 hf, fun hf => h2 hf⟩
        · exact ⟨fun hf => h1 hf, fun hf => h2 hf⟩
      · exact ⟨h1, h2⟩
    · exact ⟨h1, h2⟩
  | inact now =>
    simp only [step]
    unfold fireInact
    split
    · exact sessionInv_showIdle _
    · exact h

theorem reachable_sessionInv {s : State} (h : Reachable s) : SessionInv s := by
  induction h with
  | init b1 b2 b3 b4 b5 => exact sessionInv_showIdle _
  | step hs e ih => exact sessionInv_step _ e ih

theorem displayA_idle_iff (s : State) :
    displayState s = DisplayState.Idle ↔ s.idleShown = true := by
  unfold displayState
  by_cases h : s.idleShown = true
  · simp [h]
  · by_cases h2 : s.loadingShown = true <;> simp [h, h2]

end ScriptA

namespace ScriptB

open Kiosk

theorem showIdleB_post (s : State) :
    displayState (showIdle s) = DisplayState.Idle ∧ sessionEmpty (showIdle s) :=
  ⟨rfl, rfl, rfl⟩

end ScriptB

namespace PartZero

open Kiosk

theorem displayZero_idle_iff (s : State) :
    displayState s = DisplayState.Idle ↔ s.idleShown = true := by
  unfold displayState
  by_cases h : s.idleShown = true
  · simp [h]
  · by_cases h2 : s.loadingShown = true <;> simp [h, h2]

/-- showIdle always lands in Idle with an empty session, given the
invariant. -/
theorem showIdleZero_post (s : State) (h : Inv s) :
    (showIdle s).idleShown = true ∧ (showIdle s).lastItemId = none ∧
    (showIdle s).lastFormUrl = none ∧
    (s.pollTimer ≠ none → (showIdle s).pollTimer ≠ none) := by
  obtain ⟨⟨hp, hi2, hnd, hP, hA⟩, hC, hS, hD, hN⟩ := h
  unfold showIdle
  split
  · rename_i hg
    exact ⟨hg.2, (hS hg.1).2.1, (hS hg.1).2.2, fun hpt => hpt⟩
  · refine ⟨?_, ?_, ?_, ?_⟩ <;>
      cases hat : s.activeTimer <;> simp [clearTimer]

/-- showIdle on an active state with no live inactivity instance:
display and timer-table facts. -/
theorem showIdle_post_active (t : State) (hact : t.isActive = true)
    (hii : t.inactInsts = []) :
    (showIdle t).idleShown = true ∧ (showIdle t).lastItemId = none ∧
    (showIdle t).lastFormUrl = none ∧ (showIdle t).inactInsts = [] := by
  unfold showIdle
  rw [if_neg (by simp [hact])]
  dsimp only
  cases hat : t.activeTimer <;> cases hpt : t.pollTimer <;>
    simp [clearTimer, startPolling, removeId, hii]

end PartZero

namespace PartOne

open Kiosk

theorem displayOne_idle_iff (s : State) :
    displayState s = DisplayState.Idle ↔ s.idleShown = true := by
  unfold displayState
  by_cases h : s.idleShown = true
  · simp [h]
  · by_cases h2 : s.loadingShown = true <;> simp [h, h2]

theorem showIdleOne_post (s : State) (h : Inv s) :
    (showIdle s).idleShown = true ∧ (showIdle s).lastItemId = none ∧
    (showIdle s).lastFormUrl = none := by
  obtain ⟨h1, h2⟩ := h
  unfold showIdle
  split
  · rename_i hg
    exact ⟨by simp [startPolling], by simp [startPolling], by simp [startPolling]⟩
  · rename_i hg
    have hf : s.isActive = false := by
      cases hAv : s.isActive
      · rfl
      · exact absurd hAv hg
    exact ⟨by rw [h1, hf]; rfl, (h2 hf).1, (h2 hf).2.1⟩

end PartOne

namespace ScriptA

open Kiosk

/-- In the first script.js variant, whenever the idle screen is
shown, no inactivity timeout is pending (showIdle cancels it and
nothing arms one while idle is displayed). -/
theorem idleTimerA_showIdle (s : State) :
    (showIdle s).idleShown = true → (showIdle s).activeTimer = none :=
  fun _ => rfl

theorem idleTimerA_showActive (s : State) (u i : String) (now : Nat)
    (h : s.idleShown = true → s.activeTimer = none) :
    (showActive s u i now).idleShown = true →
    (showActive s u i now).activeTimer = none := by
  unfold showActive
  split
  · exact h
  · intro hc
    exact Bool.noConfusion hc

theorem idleTimerA_pollLoop (s : State) (o : FetchOutcome) (now : Nat)
    (h : s.idleShown = true → s.activeTimer = none) :
    (pollLoop s o now).idleShown = true →
    (pollLoop s o now).activeTimer = none := by
  cases o with
  | transportError => exact idleTimerA_showIdle s
  | httpError k => exact idleTimerA_showIdle s
  | success data =>
    cases data with
    | none => exact idleTimerA_showIdle s
    | some d =>
      by_cases hd : d.active = true
      · cases hfu : d.formUrl with
        | none => simpa [pollLoop, pollBody, hd, hfu] using idleTimerA_showIdle s
        | some u =>
          by_cases hu : u = ""
          · simpa [pollLoop, pollBody, hd, hfu, hu] using idleTimerA_showIdle s
          · simpa [pollLoop, pollBody, hd, hfu, hu] using
              idleTimerA_showActive s u (orDefault d.itemId "unknown") now h
      · simpa [pollLoop, pollBody, hd] using idleTimerA_showIdle s

theorem idleTimerA_step (s : State) (e : Event)
    (h : s.idleShown = true → s.activeTimer = none) :
    (step s e).idleShown = true → (step s e).activeTimer = none := by
  cases e with
  | poll o now => exact idleTimerA_pollLoop s o now h
  | load =>
    simp only [step]
    unfold onFrameLoad
    split
    · exact fun hf => h hf
    · exact h
  | grace now =>
    simp only [step]
    unfold graceFire switchToRedirect
    split
    · split
      · dsimp only
        split
        · exact fun hf => h hf
        · exact fun hf => h hf
      · exact h
    · exact h
  | inact now =>
    simp only [step]
    unfold fireInact
    split
    · exact idleTimerA_showIdle _
    · exact h

theorem reachA_idle_no_timer {s : State} (h : Reachable s) :
    s.idleShown = true → s.activeTimer = none := by
  induction h with
  | init b1 b2 b3 b4 b5 => exact idleTimerA_showIdle _
  | step hs e ih => exact idleTimerA_step _ e ih

end ScriptA

namespace ScriptB

open Kiosk

theorem displayB_idle_iff (s : State) :
    displayState s = DisplayState.Idle ↔ s.idleShown = true := by
  unfold displayState
  by_cases h : s.idleShown = true
  · simp [h]
  · by_cases h2 : s.loadingShown = true <;> simp [h, h2]

/-- In the iframe-only script.js variant, whenever the idle screen is
shown, the session is empty and no inactivity timeout is pending. -/
theorem idleTimerB_showIdle (s : State) :
    (showIdle s).idleShown = true →
    (showIdle s).lastItemId = none ∧ (showIdle s).lastFormUrl = none ∧
      (showIdle s).activeTimer = none :=
  fun _ => ⟨rfl, rfl, rfl⟩

theorem idleTimerB_showActive (s : State) (u i : String) (now : Nat)
    (h : s.idleShown = true →
      s.lastItemId = none ∧ s.lastFormUrl = none ∧ s.activeTimer = none) :
    (showActive s u i now).idleShown = true →
    (showActive s u i now).lastItemId = none ∧
      (showActive s u i now).lastFormUrl = none ∧
      (showActive s u i now).activeTimer = none := by
  unfold showActive resetActiveTimer
  split
  · rename_i hg
    intro hc
    have hni := (h hc).1
    rw [hni] at hg
    exact Option.noConfusion hg.1
  · intro hc
    exact Bool.noConfusion hc

theorem idleTimerB_pollOnce (s : State) (o : FetchOutcome) (now : Nat)
    (h : s.idleShown = true →
      s.lastItemId = none ∧ s.lastFormUrl = none ∧ s.activeTimer = none) :
    (pollOnce s o now).idleShown = true →
    (pollOnce s o now).lastItemId = none ∧
      (pollOnce s o now).lastFormUrl = none ∧
      (pollOnce s o now).activeTimer = none := by
  cases o with
  | transportError => exact idleTimerB_showIdle s
  | httpError k => exact idleTimerB_showIdle s
  | success data =>
    cases data with
    | none => exact idleTimerB_showIdle s
    | some d =>
      by_cases hd : d.active = true
      · cases hfu : d.formUrl with
        | none => simpa [pollOnce, pollBody, hd, hfu] using idleTimerB_showIdle s
        | some u =>
          by_cases hu : u = ""
          · simpa [pollOnce, pollBody, hd, hfu, hu] using idleTimerB_showIdle s
          · simpa [pollOnce, pollBody, hd, hfu, hu] using
              idleTimerB_showActive s u (orDefault d.itemId "unknown") now h
      · simpa [pollOnce, pollBody, hd] using idleTimerB_showIdle s

theorem idleTimerB_step (s : State) (e : Event)
    (h : s.idleShown = true →
      s.lastItemId = none ∧ s.lastFormUrl = none ∧ s.activeTimer = none) :
    (step s e).idleShown = true →
    (step s e).lastItemId = none ∧ (step s e).lastFormUrl = none ∧
      (step s e).activeTimer = none := by
  cases e with
  | poll o now => exact idleTimerB_pollOnce s o now h
  | load =>
    simp only [step]
    unfold onFrameLoad
    split
    · exact fun hf => h hf
    · exact h
  | inact now =>
    simp only [step]
    unfold fireInact
    split
    · exact idleTimerB_showIdle _
    · exact h

theorem reachB_idle_no_timer {s : State} (h : Reachable s) :
    s.idleShown = true →
    s.lastItemId = none ∧ s.lastFormUrl = none ∧ s.activeTimer = none := by
  induction h with
  | init b1 b2 b3 b4 => exact idleTimerB_showIdle _
  | step hs e ih => exact idleTimerB_step _ e ih

end ScriptB


open Kiosk in
/-- Claim C1, counterexample: in the part_001 variant a poll cycle
whose fetch fails by a transport error (and likewise a non-success
HTTP response) leaves the state exactly as it was: starting from the
reachable active state exActive, the cycle ends with DisplayState
still ActiveLoading and a non-empty Session, contradicting the claim
that after a failed fetch the DisplayState is Idle and the Session is
empty regardless of the prior state. -/
theorem C1_counterexample :
    PartOne.Reachable PartOne.exActive ∧
    PartOne.pollOnce PartOne.exActive FetchOutcome.transportError 5 =
      PartOne.exActive ∧
    PartOne.pollOnce PartOne.exActive (FetchOutcome.httpError 500) 5 =
      PartOne.exActive ∧
    PartOne.displayState PartOne.exActive = DisplayState.ActiveLoading ∧
    PartOne.exActive.lastFormUrl = some "https://x/f" := by
  refine ⟨PartOne.Reachable.step (PartOne.Reachable.init true false false false) _,
    rfl, rfl, ?_, ?_⟩ <;> decide

open Kiosk in
/-- Claim C1, amended: a poll cycle that reports inactive (absent
record or active not equal to true) ends Idle with an empty Session in
every variant, and a failed fetch (transport error or non-success
response) does so in the two script.js variants and in part_000 — but
in part_001 a failed fetch leaves the state unchanged, because its
catch handler only updates the badge. -/
theorem C1_corrected :
    (∀ (s : ScriptA.State) (o : FetchOutcome) (now : Nat),
      inactiveOutcome o ∨ failedOutcome o →
      ScriptA.displayState (ScriptA.pollLoop s o now) = DisplayState.Idle ∧
      ScriptA.sessionEmpty (ScriptA.pollLoop s o now)) ∧
    (∀ (s : ScriptB.State) (o : FetchOutcome) (now : Nat),
      inactiveOutcome o ∨ failedOutcome o →
      ScriptB.displayState (ScriptB.pollOnce s o now) = DisplayState.Idle ∧
      ScriptB.sessionEmpty (ScriptB.pollOnce s o now)) ∧
    (∀ (s : PartZero.State) (o : FetchOutcome) (now : Nat),
      PartZero.Reachable s → inactiveOutcome o ∨ failedOutcome o →
      PartZero.displayState (PartZero.pollOnce s o now) = DisplayState.Idle ∧
      PartZero.sessionEmpty (PartZero.pollOnce s o now)) ∧
    (∀ (s : PartOne.State) (o : FetchOutcome) (now : Nat),
      PartOne.Reachable s → inactiveOutcome o →
      PartOne.displayState (PartOne.pollOnce s o now) = DisplayState.Idle ∧
      PartOne.sessionEmpty (PartOne.pollOnce s o now)) ∧
    (∀ (s : PartOne.State) (o : FetchOutcome) (now : Nat),
      failedOutcome o → PartOne.pollOnce s o now = s) := by
  refine ⟨?_, ?_, ?_, ?_, ?_⟩
  · intro s o now ho
    have hred : ScriptA.pollLoop s o now = ScriptA.showIdle s := by
      rcases ho with (h1 | ⟨d, hd, hdf⟩) | (h1 | ⟨k, hk⟩)
      · rw [h1]; rfl
      · subst hd; simp [ScriptA.pollLoop, ScriptA.pollBody, hdf]
      · rw [h1]; rfl
      · rw [hk]; rfl
    rw [hred]
    exact ⟨rfl, rfl, rfl⟩
  · intro s o now ho
    have hred : ScriptB.pollOnce s o now = ScriptB.showIdle s := by
      rcases ho with (h1 | ⟨d, hd, hdf⟩) | (h1 | ⟨k, hk⟩)
      · rw [h1]; rfl
      · subst hd; simp [ScriptB.pollOnce, ScriptB.pollBody, hdf]
      · rw [h1]; rfl
      · rw [hk]; rfl
    rw [hred]
    exact ⟨rfl, rfl, rfl⟩
  · intro s o now hr ho
    have hinv := PartZero.reachableZero_inv hr
    have hred : PartZero.pollOnce s o now = PartZero.showIdle s := by
      rcases ho with (h1 | ⟨d, hd, hdf⟩) | (h1 | ⟨k, hk⟩)
      · rw [h1]; rfl
      · subst hd; simp [PartZero.pollOnce, PartZero.pollBody, hdf]
      · rw [h1]; rfl
      · rw [hk]; rfl
    rw [hred]
    obtain ⟨hsh, hsi, hsu, _⟩ := PartZero.showIdleZero_post s hinv
    exact ⟨(PartZero.displayZero_idle_iff _).mpr hsh, hsi, hsu⟩
  · intro s o now hr ho
    have hinv := PartOne.reachableOne_inv hr
    have hred : PartOne.pollOnce s o now = PartOne.showIdle s := by
      rcases ho with h1 | ⟨d, hd, hdf⟩
      · rw [h1]; rfl
      · subst hd; simp [PartOne.pollOnce, hdf]
    rw [hred]
    obtain ⟨hsh, hsi, hsu⟩ := PartOne.showIdleOne_post s hinv
    exact ⟨(PartOne.displayOne_idle_iff _).mpr hsh, hsi, hsu⟩
  · intro s o now ho
    rcases ho with h1 | ⟨k, hk⟩
    · rw [h1]; rfl
    · rw [hk]; rfl

open Kiosk in
/-- Claim C1, witness: the amended statement applied at concrete
inputs, one per conjunct. -/
theorem C1_witness :
    (ScriptA.displayState
        (ScriptA.pollLoop ScriptA.exActive FetchOutcome.transportError 3) =
      DisplayState.Idle ∧
      ScriptA.sessionEmpty
        (ScriptA.pollLoop ScriptA.exActive FetchOutcome.transportError 3)) ∧
    (ScriptB.displayState
        (ScriptB.pollOnce ScriptB.exActive (FetchOutcome.httpError 500) 3) =
      DisplayState.Idle ∧
      ScriptB.sessionEmpty
        (ScriptB.pollOnce ScriptB.exActive (FetchOutcome.httpError 500) 3)) ∧
    (PartZero.displayState
        (PartZero.pollOnce PartZero.exActive FetchOutcome.transportError 3) =
      DisplayState.Idle ∧
      PartZero.sessionEmpty
        (PartZero.pollOnce PartZero.exActive FetchOutcome.transportError 3)) ∧
    (PartOne.displayState
        (PartOne.pollOnce PartOne.exActive (FetchOutcome.success none) 3) =
      DisplayState.Idle ∧
      PartOne.sessionEmpty
        (PartOne.pollOnce PartOne.exActive (FetchOutcome.success none) 3)) ∧
    PartOne.pollOnce PartOne.exActive FetchOutcome.transportError 3 =
      PartOne.exActive :=
  ⟨C1_corrected.1 ScriptA.exActive _ 3 (Or.inr (Or.inl rfl)),
   C1_corrected.2.1 ScriptB.exActive _ 3 (Or.inr (Or.inr ⟨500, rfl⟩)),
   C1_corrected.2.2.1 PartZero.exActive _ 3
     (PartZero.Reachable.step (PartZero.Reachable.init true false false false) _)
     (Or.inr (Or.inl rfl)),
   C1_corrected.2.2.2.1 PartOne.exActive _ 3
     (PartOne.Reachable.step (PartOne.Reachable.init true false false false) _)
     (Or.inl rfl),
   C1_corrected.2.2.2.2 PartOne.exActive _ 3 (Or.inl rfl)⟩

open Kiosk in
/-- Claim C2, confirmed: a poll cycle whose active record carries the
same (itemId, formUrl) pair as the current Session leaves the
embedding surface untouched — no frame src write and no visibility
change — in all four variants (in the first script.js variant the
whole state is unchanged). -/
theorem C2_confirmed :
    (∀ (s : ScriptA.State) (d : StatusRecord) (u : String) (now : Nat),
      d.active = true → d.formUrl = some u → u ≠ "" →
      s.lastItemId = some (orDefault d.itemId "unknown") →
      s.lastFormUrl = some u →
      ScriptA.pollLoop s (.success (some d)) now = s) ∧
    (∀ (s : ScriptB.State) (d : StatusRecord) (u : String) (now : Nat),
      d.active = true → d.formUrl = some u → u ≠ "" →
      s.lastItemId = some (orDefault d.itemId "unknown") →
      s.lastFormUrl = some u →
      ScriptB.surface (ScriptB.pollOnce s (.success (some d)) now) =
        ScriptB.surface s) ∧
    (∀ (s : PartZero.State) (d : StatusRecord) (u : String) (now : Nat),
      d.active = true → d.formUrl = some u → u ≠ "" →
      s.isActive = true →
      s.lastItemId = some (orDefault d.itemId "unknown") →
      s.lastFormUrl = some u →
      PartZero.surface (PartZero.pollOnce s (.success (some d)) now) =
        PartZero.surface s) ∧
    (∀ (s : PartOne.State) (d : StatusRecord) (u : String) (now : Nat),
      d.active = true → d.formUrl = some u → u ≠ "" →
      s.lastItemId = d.itemId → s.lastFormUrl = some u →
      PartOne.surface (PartOne.pollOnce s (.success (some d)) now) =
        PartOne.surface s) := by
  refine ⟨?_, ?_, ?_, ?_⟩
  · intro s d u now hact hfu hu hsi hsu
    unfold ScriptA.pollLoop ScriptA.pollBody
    try dsimp only
    rw [if_pos hact, hfu]
    try dsimp only
    rw [if_neg hu]
    try dsimp only
    unfold ScriptA.showActive
    rw [if_pos ⟨hsi, hsu⟩]
  · intro s d u now hact hfu hu hsi hsu
    unfold ScriptB.pollOnce ScriptB.pollBody
    try dsimp only
    rw [if_pos hact, hfu]
    try dsimp only
    rw [if_neg hu]
    try dsimp only
    unfold ScriptB.showActive
    rw [if_pos ⟨hsi, hsu⟩]
    rfl
  · intro s d u now hact hfu hu hia hsi hsu
    unfold PartZero.pollOnce PartZero.pollBody
    try dsimp only
    rw [if_pos hact, hfu]
    try dsimp only
    rw [if_neg hu]
    try dsimp only
    unfold PartZero.showActive
    rw [if_pos ⟨hia, hsi, hsu⟩]
    unfold PartZero.surface
    simp
  · intro s d u now hact hfu hu hsi hsu
    unfold PartOne.pollOnce
    try dsimp only
    rw [if_pos hact]
    unfold PartOne.showActive
    rw [hfu]
    try dsimp only
    rw [if_neg hu, if_pos hsu]
    try dsimp only
    split <;> rfl

open Kiosk in
/-- Claim C2, witness: the no-flicker law applied at a concrete
same-session refresh in each variant. -/
theorem C2_witness :
    ScriptA.pollLoop ScriptA.exActive (.success (some rec42)) 9 =
      ScriptA.exActive ∧
    ScriptB.surface (ScriptB.pollOnce ScriptB.exActive (.success (some rec42)) 9) =
      ScriptB.surface ScriptB.exActive ∧
    PartZero.surface
        (PartZero.pollOnce PartZero.exActive (.success (some rec42)) 9) =
      PartZero.surface PartZero.exActive ∧
    PartOne.surface (PartOne.pollOnce PartOne.exActive (.success (some rec42)) 9) =
      PartOne.surface PartOne.exActive :=
  ⟨C2_confirmed.1 ScriptA.exActive rec42 "https://x/f" 9 rfl rfl (by decide)
     (by decide) (by decide),
   C2_confirmed.2.1 ScriptB.exActive rec42 "https://x/f" 9 rfl rfl (by decide)
     (by decide) (by decide),
   C2_confirmed.2.2.1 PartZero.exActive rec42 "https://x/f" 9 rfl rfl (by decide)
     (by decide) (by decide) (by decide),
   C2_confirmed.2.2.2 PartOne.exActive rec42 "https://x/f" 9 rfl rfl (by decide)
     (by decide) (by decide)⟩

open Kiosk in
/-- Claim C3, counterexample: in part_000, starting from the
reachable state exIdleWarm — idle with an empty Session but with the
warm iframe still holding the form URL — a poll cycle with an active
record whose (itemId, formUrl) differs from the (empty) Session
issues no src write at all: srcWrites stays at 1, where the claim
demands exactly one new setSource call (srcWrites 2). -/
theorem C3_counterexample :
    PartZero.Reachable PartZero.exIdleWarm ∧
    PartZero.sessionEmpty PartZero.exIdleWarm ∧
    PartZero.exIdleWarm.frameSrc = some "https://x/f" ∧
    PartZero.exIdleWarm.srcWrites = 1 ∧
    (PartZero.pollOnce PartZero.exIdleWarm (.success (some rec42)) 6).srcWrites = 1 ∧
    (PartZero.pollOnce PartZero.exIdleWarm (.success (some rec42)) 6).lastFormUrl =
      some "https://x/f" := by
  refine ⟨PartZero.Reachable.step
      (PartZero.Reachable.step
        (PartZero.Reachable.init true false false false) _) _,
    ⟨by decide, by decide⟩, ?_, ?_, ?_, ?_⟩ <;> decide

open Kiosk in
/-- Claim C3, amended: on a session change (active record with a
truthy formUrl whose pair differs from the current Session), the
Session is replaced by the new pair, the DisplayState becomes
ActiveLoading and flips to ActiveLoaded exactly when the frame's load
notification fires; the frame src receives the new URL, but a
setSource write is issued only when the frame's current src differs
from the new URL — in part_000 a warm frame already
holding the URL gets no new write, while the first script.js variant
always writes exactly once. -/
theorem C3_corrected :
    (∀ (s : PartZero.State) (d : StatusRecord) (u : String) (now : Nat),
      d.active = true → d.formUrl = some u → u ≠ "" →
      ¬ (s.isActive = true ∧ s.lastItemId = some (orDefault d.itemId "unknown") ∧
         s.lastFormUrl = some u) →
      (PartZero.pollOnce s (.success (some d)) now).lastItemId =
        some (orDefault d.itemId "unknown") ∧
      (PartZero.pollOnce s (.success (some d)) now).lastFormUrl = some u ∧
      (PartZero.pollOnce s (.success (some d)) now).frameSrc = some u ∧
      (PartZero.pollOnce s (.success (some d)) now).srcWrites =
        (if s.frameSrc = some u then s.srcWrites else s.srcWrites + 1) ∧
      PartZero.displayState (PartZero.pollOnce s (.success (some d)) now) =
        DisplayState.ActiveLoading ∧
      PartZero.displayState
          (PartZero.onFrameLoad (PartZero.pollOnce s (.success (some d)) now)) =
        DisplayState.ActiveLoaded) ∧
    (∀ (s : ScriptA.State) (d : StatusRecord) (u : String) (now : Nat),
      d.active = true → d.formUrl = some u → u ≠ "" →
      ¬ (s.lastItemId = some (orDefault d.itemId "unknown") ∧
         s.lastFormUrl = some u) →
      (ScriptA.pollLoop s (.success (some d)) now).lastItemId =
        some (orDefault d.itemId "unknown") ∧
      (ScriptA.pollLoop s (.success (some d)) now).lastFormUrl = some u ∧
      (ScriptA.pollLoop s (.success (some d)) now).frameSrc = some u ∧
      (ScriptA.pollLoop s (.success (some d)) now).srcWrites = s.srcWrites + 1 ∧
      ScriptA.displayState (ScriptA.pollLoop s (.success (some d)) now) =
        DisplayState.ActiveLoading ∧
      ScriptA.displayState
          (ScriptA.onFrameLoad (ScriptA.pollLoop s (.success (some d)) now)) =
        DisplayState.ActiveLoaded) := by
  constructor
  · intro s d u now hact hfu hu hne
    unfold PartZero.pollOnce PartZero.pollBody
    try dsimp only
    rw [if_pos hact, hfu]
    try dsimp only
    rw [if_neg hu]
    try dsimp only
    unfold PartZero.showActive
    rw [if_neg hne]
    try dsimp only
    by_cases hfr : s.frameSrc = some u
    · rw [if_pos hfr, if_pos hfr]
      refine ⟨by simp, by simp, by simp [hfr], by simp, ?_, ?_⟩
      · unfold PartZero.displayState
        simp
      · unfold PartZero.onFrameLoad PartZero.displayState
        simp
    · rw [if_neg hfr, if_neg hfr]
      refine ⟨by simp, by simp, by simp, by simp, ?_, ?_⟩
      · unfold PartZero.displayState
        simp
      · unfold PartZero.onFrameLoad PartZero.displayState
        simp
  · intro s d u now hact hfu hu hne
    unfold ScriptA.pollLoop ScriptA.pollBody
    try dsimp only
    rw [if_pos hact, hfu]
    try dsimp only
    rw [if_neg hu]
    try dsimp only
    unfold ScriptA.showActive
    rw [if_neg hne]
    refine ⟨rfl, rfl, rfl, rfl, ?_, ?_⟩
    · unfold ScriptA.displayState
      simp
    · unfold ScriptA.onFrameLoad ScriptA.displayState
      simp

open Kiosk in
/-- Claim C3, witness: the amended statement applied at a concrete
session change in part_000 (from the startup state, cold frame) and in
the first script.js variant. -/
theorem C3_witness :
    (PartZero.pollOnce PartZero.exIdle (.success (some rec42)) 1).lastFormUrl =
      some "https://x/f" ∧
    (PartZero.pollOnce PartZero.exIdle (.success (some rec42)) 1).srcWrites =
      (if PartZero.exIdle.frameSrc = some "https://x/f" then
        PartZero.exIdle.srcWrites else PartZero.exIdle.srcWrites + 1) ∧
    PartZero.displayState (PartZero.pollOnce PartZero.exIdle (.success (some rec42)) 1) =
      DisplayState.ActiveLoading ∧
    (ScriptA.pollLoop ScriptA.exIdle (.success (some rec42)) 0).srcWrites =
      ScriptA.exIdle.srcWrites + 1 ∧
    ScriptA.displayState
        (ScriptA.onFrameLoad (ScriptA.pollLoop ScriptA.exIdle (.success (some rec42)) 0)) =
      DisplayState.ActiveLoaded :=
  ⟨(C3_corrected.1 PartZero.exIdle rec42 "https://x/f" 1 rfl rfl (by decide)
      (by decide)).2.1,
   (C3_corrected.1 PartZero.exIdle rec42 "https://x/f" 1 rfl rfl (by decide)
      (by decide)).2.2.2.1,
   (C3_corrected.1 PartZero.exIdle rec42 "https://x/f" 1 rfl rfl (by decide)
      (by decide)).2.2.2.2.1,
   (C3_corrected.2 ScriptA.exIdle rec42 "https://x/f" 0 rfl rfl (by decide)
      (by decide)).2.2.2.1,
   (C3_corrected.2 ScriptA.exIdle rec42 "https://x/f" 0 rfl rfl (by decide)
      (by decide)).2.2.2.2.2⟩

open Kiosk in
/-- Claim C4, counterexample: in part_001 the reachable state
exWaiting — produced from startup by one poll cycle whose record is
active with no formUrl — has DisplayState ActiveLoading while its
Session is empty, so DisplayState not Idle does not imply a non-empty
Session. -/
theorem C4_counterexample :
    PartOne.Reachable PartOne.exWaiting ∧
    PartOne.displayState PartOne.exWaiting = DisplayState.ActiveLoading ∧
    PartOne.exWaiting.lastItemId = none ∧
    PartOne.exWaiting.lastFormUrl = none := by
  refine ⟨PartOne.Reachable.step (PartOne.Reachable.init true false false false) _,
    ?_, ?_, ?_⟩ <;> decide

open Kiosk in
/-- Claim C4, amended: in the first script.js variant and in part_000
the invariant holds in every reachable state (DisplayState differs
from Idle exactly when the Session is non-empty, and Idle states have
an empty Session); in part_001 only the direction Idle implies empty
Session holds, because the active-waiting-for-url state is not Idle
yet keeps the Session empty. -/
theorem C4_corrected :
    (∀ s : ScriptA.State, ScriptA.Reachable s →
      ((ScriptA.displayState s ≠ DisplayState.Idle ↔
        ¬ ScriptA.sessionEmpty s) ∧
       (ScriptA.displayState s = DisplayState.Idle → ScriptA.sessionEmpty s))) ∧
    (∀ s : PartZero.State, PartZero.Reachable s →
      ((PartZero.displayState s ≠ DisplayState.Idle ↔
        ¬ PartZero.sessionEmpty s) ∧
       (PartZero.displayState s = DisplayState.Idle → PartZero.sessionEmpty s))) ∧
    (∀ s : PartOne.State, PartOne.Reachable s →
      (PartOne.displayState s = DisplayState.Idle → PartOne.sessionEmpty s)) := by
  refine ⟨?_, ?_, ?_⟩
  · intro s hr
    obtain ⟨h1, h2⟩ := ScriptA.reachable_sessionInv hr
    cases hsh : s.idleShown with
    | true =>
      have hd : ScriptA.displayState s = DisplayState.Idle :=
        (ScriptA.displayA_idle_iff s).mpr hsh
      have hse := h1 hsh
      refine ⟨⟨fun hc => absurd hd hc, fun hc => absurd ⟨hse.1, hse.2⟩ hc⟩,
        fun _ => ⟨hse.1, hse.2⟩⟩
    | false =>
      have hd : ScriptA.displayState s ≠ DisplayState.Idle := by
        intro hc
        rw [(ScriptA.displayA_idle_iff s).mp hc] at hsh
        exact Bool.noConfusion hsh
      have hns := h2 hsh
      refine ⟨⟨fun _ hc => hns.1 hc.1, fun _ => hd⟩, fun hc => absurd hc hd⟩
  · intro s hr
    obtain ⟨hcore, hC, hS, hD, hN⟩ := PartZero.reachableZero_inv hr
    cases hAv : s.isActive with
    | false =>
      have hsh : s.idleShown = true := by rw [hD, hAv]; rfl
      have hd : PartZero.displayState s = DisplayState.Idle :=
        (PartZero.displayZero_idle_iff s).mpr hsh
      have hse := hS hAv
      refine ⟨⟨fun hc => absurd hd hc, fun hc => absurd ⟨hse.2.1, hse.2.2⟩ hc⟩,
        fun _ => ⟨hse.2.1, hse.2.2⟩⟩
    | true =>
      have hsh : s.idleShown = false := by rw [hD, hAv]; rfl
      have hd : PartZero.displayState s ≠ DisplayState.Idle := by
        intro hc
        rw [(PartZero.displayZero_idle_iff s).mp hc] at hsh
        exact Bool.noConfusion hsh
      have hns := hN hAv
      refine ⟨⟨fun _ hc => hns.1 hc.1, fun _ => hd⟩, fun hc => absurd hc hd⟩
  · intro s hr hd
    obtain ⟨h1, h2⟩ := PartOne.reachableOne_inv hr
    have hsh : s.idleShown = true := (PartOne.displayOne_idle_iff s).mp hd
    have hAv : s.isActive = false := by
      cases hA2 : s.isActive
      · rfl
      · rw [h1, hA2] at hsh; exact Bool.noConfusion hsh
    exact ⟨(h2 hAv).1, (h2 hAv).2.1⟩

open Kiosk in
/-- Claim C4, witness: the amended invariant applied at reachable
states of each variant, idle and active. -/
theorem C4_witness :
    (ScriptA.displayState ScriptA.exActive ≠ DisplayState.Idle ↔
      ¬ ScriptA.sessionEmpty ScriptA.exActive) ∧
    (PartZero.displayState PartZero.exIdleWarm = DisplayState.Idle →
      PartZero.sessionEmpty PartZero.exIdleWarm) ∧
    (PartOne.displayState PartOne.exWaiting = DisplayState.Idle →
      PartOne.sessionEmpty PartOne.exWaiting) :=
  ⟨(C4_corrected.1 ScriptA.exActive
      (ScriptA.Reachable.step (ScriptA.Reachable.init true false false false false)
        (ScriptA.Event.poll (.success (some rec42)) 0))).1,
   (C4_corrected.2.1 PartZero.exIdleWarm
      (PartZero.Reachable.step
        (PartZero.Reachable.step (PartZero.Reachable.init true false false false) _)
        _)).2,
   C4_corrected.2.2 PartOne.exWaiting
      (PartOne.Reachable.step (PartOne.Reachable.init true false false false) _)⟩

open Kiosk in
/-- Claim C5, counterexample: in the first script.js variant a
same-session poll cycle returns without re-arming the inactivity
timer: from the reachable active state exActive (activated at time 0,
timer deadline 120000), processing the identical record at time 50
leaves the whole state — deadline included — unchanged, instead of
moving the deadline to 50 + inactivityTimeoutMs. -/
theorem C5_counterexample :
    ScriptA.exActive.activeTimer = some 120000 ∧
    ScriptA.pollLoop ScriptA.exActive (.success (some rec42)) 50 =
      ScriptA.exActive ∧
    (ScriptA.pollLoop ScriptA.exActive (.success (some rec42)) 50).activeTimer ≠
      some (50 + ScriptA.ACTIVE_TIMEOUT_MS) := by
  refine ⟨?_, ?_, ?_⟩ <;> decide

open Kiosk in
/-- Claim C5, amended: a same-session refresh re-arms the inactivity
timer to fire inactivityTimeoutMs after the cycle in the iframe-only
script.js variant, in part_000 and in part_001; in the first
script.js variant the same-session branch returns without touching
the previously armed timer. -/
theorem C5_corrected :
    (∀ (s : ScriptB.State) (d : StatusRecord) (u : String) (now : Nat),
      d.active = true → d.formUrl = some u → u ≠ "" →
      s.lastItemId = some (orDefault d.itemId "unknown") →
      s.lastFormUrl = some u →
      (ScriptB.pollOnce s (.success (some d)) now).activeTimer =
        some (now + ScriptB.ACTIVE_TIMEOUT_MS)) ∧
    (∀ (s : PartZero.State) (d : StatusRecord) (u : String) (now : Nat),
      PartZero.Reachable s →
      d.active = true → d.formUrl = some u → u ≠ "" →
      s.isActive = true →
      s.lastItemId = some (orDefault d.itemId "unknown") →
      s.lastFormUrl = some u →
      (PartZero.pollOnce s (.success (some d)) now).inactInsts =
        [(s.nextId, now + PartZero.ACTIVE_TIMEOUT_MS)]) ∧
    (∀ (s : PartOne.State) (d : StatusRecord) (u : String) (now : Nat),
      d.active = true → d.formUrl = some u → u ≠ "" →
      s.lastFormUrl = some u →
      (PartOne.pollOnce s (.success (some d)) now).activeTimer =
        some (now + PartOne.ACTIVE_TIMEOUT_MS)) ∧
    (∀ (s : ScriptA.State) (d : StatusRecord) (u : String) (now : Nat),
      d.active = true → d.formUrl = some u → u ≠ "" →
      s.lastItemId = some (orDefault d.itemId "unknown") →
      s.lastFormUrl = some u →
      ScriptA.pollLoop s (.success (some d)) now = s) := by
  refine ⟨?_, ?_, ?_, ?_⟩
  · intro s d u now hact hfu hu hsi hsu
    unfold ScriptB.pollOnce ScriptB.pollBody
    try dsimp only
    rw [if_pos hact, hfu]
    try dsimp only
    rw [if_neg hu]
    try dsimp only
    unfold ScriptB.showActive
    rw [if_pos ⟨hsi, hsu⟩]
    rfl
  · intro s d u now hr hact hfu hu hia hsi hsu
    have hcore := (PartZero.reachableZero_inv hr).1
    unfold PartZero.pollOnce PartZero.pollBody
    try dsimp only
    rw [if_pos hact, hfu]
    try dsimp only
    rw [if_neg hu]
    try dsimp only
    unfold PartZero.showActive
    rw [if_pos ⟨hia, hsi, hsu⟩]
    rw [PartZero.resetActiveTimer_spec s now hcore]
  · intro s d u now hact hfu hu hsu
    unfold PartOne.pollOnce
    try dsimp only
    rw [if_pos hact]
    unfold PartOne.showActive
    rw [hfu]
    try dsimp only
    rw [if_neg hu, if_pos hsu]
    try dsimp only
    split <;> rfl
  · intro s d u now hact hfu hu hsi hsu
    unfold ScriptA.pollLoop ScriptA.pollBody
    try dsimp only
    rw [if_pos hact, hfu]
    try dsimp only
    rw [if_neg hu]
    try dsimp only
    unfold ScriptA.showActive
    rw [if_pos ⟨hsi, hsu⟩]

open Kiosk in
/-- Claim C5, witness: the amended statement applied at concrete
same-session refreshes. -/
theorem C5_witness :
    (ScriptB.pollOnce ScriptB.exActive (.success (some rec42)) 40).activeTimer =
      some (40 + ScriptB.ACTIVE_TIMEOUT_MS) ∧
    (PartZero.pollOnce PartZero.exActive (.success (some rec42)) 40).inactInsts =
      [(PartZero.exActive.nextId, 40 + PartZero.ACTIVE_TIMEOUT_MS)] ∧
    (PartOne.pollOnce PartOne.exActive (.success (some rec42)) 40).activeTimer =
      some (40 + PartOne.ACTIVE_TIMEOUT_MS) ∧
    ScriptA.pollLoop ScriptA.exActive (.success (some rec42)) 40 =
      ScriptA.exActive :=
  ⟨C5_corrected.1 ScriptB.exActive rec42 "https://x/f" 40 rfl rfl (by decide)
      (by decide) (by decide),
   C5_corrected.2.1 PartZero.exActive rec42 "https://x/f" 40
      (PartZero.Reachable.step (PartZero.Reachable.init true false false false) _)
      rfl rfl (by decide) (by decide) (by decide) (by decide),
   C5_corrected.2.2.1 PartOne.exActive rec42 "https://x/f" 40 rfl rfl (by decide)
      (by decide),
   C5_corrected.2.2.2 ScriptA.exActive rec42 "https://x/f" 40 rfl rfl (by decide)
      (by decide) (by decide)⟩

open Kiosk in
/-- Claim C6, confirmed, for part_000 (the variant with adaptive
polling): in every reachable state, every live poll interval runs at
the idle cadence exactly when the DisplayState is Idle and at the
active cadence otherwise, and at most one poll interval and at most
one inactivity timeout are live — every re-arming first cleared the
previous instance, so no double-firing is possible. -/
theorem C6_confirmed (s : PartZero.State) (hr : PartZero.Reachable s) :
    (∀ p ∈ s.pollInsts,
      p.snd = (if PartZero.displayState s = DisplayState.Idle then
        PartZero.IDLE_POLL_MS else PartZero.ACTIVE_POLL_MS)) ∧
    s.pollInsts.length ≤ 1 ∧ s.inactInsts.length ≤ 1 := by
  obtain ⟨⟨hp, hi2, hnd, hP, hA⟩, hC, hS, hD, hN⟩ := PartZero.reachableZero_inv hr
  refine ⟨?_, ?_, ?_⟩
  · intro p hm
    have hc := hC p hm
    cases hAv : s.isActive with
    | false =>
      have hsh : s.idleShown = true := by rw [hD, hAv]; rfl
      rw [if_pos ((PartZero.displayZero_idle_iff s).mpr hsh)]
      rw [hAv] at hc
      simpa using hc
    | true =>
      have hsh : s.idleShown = false := by rw [hD, hAv]; rfl
      have hne : PartZero.displayState s ≠ DisplayState.Idle := by
        intro hcon
        rw [(PartZero.displayZero_idle_iff s).mp hcon] at hsh
        exact Bool.noConfusion hsh
      rw [if_neg hne]
      rw [hAv] at hc
      simpa using hc
  · cases hpt : s.pollTimer with
    | none => rw [hpt] at hP; rw [hP]; simp
    | some a =>
      rw [hpt] at hP
      obtain ⟨v, hv⟩ := hP
      rw [hv]
      simp
  · cases hat : s.activeTimer with
    | none => rw [hat] at hA; rw [hA]; simp
    | some a =>
      rw [hat] at hA
      obtain ⟨d2, hd2⟩ := hA
      rw [hd2]
      simp

open Kiosk in
/-- Claim C6, witness: the timer discipline at a concrete reachable
active state of part_000. -/
theorem C6_witness :
    (∀ p ∈ PartZero.exActive.pollInsts,
      p.snd = (if PartZero.displayState PartZero.exActive = DisplayState.Idle then
        PartZero.IDLE_POLL_MS else PartZero.ACTIVE_POLL_MS)) ∧
    PartZero.exActive.pollInsts.length ≤ 1 ∧
    PartZero.exActive.inactInsts.length ≤ 1 :=
  C6_confirmed PartZero.exActive
    (PartZero.Reachable.step (PartZero.Reachable.init true false false false) _)

open Kiosk in
/-- Claim C7, confirmed: the inactivity timer, if armed and never
re-armed, fires exactly once, inactivityTimeoutMs after it was armed,
and its firing unconditionally transitions the loop to Idle with an
empty session; firing while already Idle is a no-op.  For part_000
this is proved on the live-instance table (arming leaves exactly one
timeout instance at the right deadline; a firing instance is consumed
and afterwards no instance is live, so no second firing is possible;
a fire changes the state only at a live instance's deadline; firing
in a reachable Idle state does nothing).  For the two script.js
variants the one-shot timeout is its deadline: arming sets it to
now + ACTIVE_TIMEOUT_MS (in the first variant, on every session
change), the fire event changes the state only at that deadline,
consuming the timer and forcing Idle with an empty session, and in
every reachable Idle state no timeout is pending, so a fire is a
no-op. -/
theorem C7_confirmed :
    (∀ (s : PartZero.State) (now : Nat), PartZero.Reachable s →
      (PartZero.resetActiveTimer s now).inactInsts =
        [(s.nextId, now + PartZero.ACTIVE_TIMEOUT_MS)]) ∧
    (∀ (s : PartZero.State) (hh now : Nat), PartZero.Reachable s →
      (hh, now) ∈ s.inactInsts →
      PartZero.displayState (PartZero.fireInact s hh now) = DisplayState.Idle ∧
      PartZero.sessionEmpty (PartZero.fireInact s hh now) ∧
      (PartZero.fireInact s hh now).inactInsts = []) ∧
    (∀ (s : PartZero.State) (hh now : Nat),
      PartZero.fireInact s hh now ≠ s → (hh, now) ∈ s.inactInsts) ∧
    (∀ (s : PartZero.State) (hh now : Nat), PartZero.Reachable s →
      PartZero.displayState s = DisplayState.Idle →
      PartZero.fireInact s hh now = s) ∧
    (∀ (s : ScriptA.State) (u i : String) (now : Nat),
      ¬ (s.lastItemId = some i ∧ s.lastFormUrl = some u) →
      (ScriptA.showActive s u i now).activeTimer =
        some (now + ScriptA.ACTIVE_TIMEOUT_MS)) ∧
    (∀ (s : ScriptA.State) (now : Nat), s.activeTimer = some now →
      ScriptA.displayState (ScriptA.fireInact s now) = DisplayState.Idle ∧
      ScriptA.sessionEmpty (ScriptA.fireInact s now) ∧
      (ScriptA.fireInact s now).activeTimer = none) ∧
    (∀ (s : ScriptA.State) (now : Nat),
      ScriptA.fireInact s now ≠ s → s.activeTimer = some now) ∧
    (∀ (s : ScriptA.State) (now : Nat), ScriptA.Reachable s →
      ScriptA.displayState s = DisplayState.Idle →
      ScriptA.fireInact s now = s) ∧
    (∀ (s : ScriptB.State) (u i : String) (now : Nat),
      (ScriptB.showActive s u i now).activeTimer =
        some (now + ScriptB.ACTIVE_TIMEOUT_MS)) ∧
    (∀ (s : ScriptB.State) (now : Nat), s.activeTimer = some now →
      ScriptB.displayState (ScriptB.fireInact s now) = DisplayState.Idle ∧
      ScriptB.sessionEmpty (ScriptB.fireInact s now) ∧
      (ScriptB.fireInact s now).activeTimer = none) ∧
    (∀ (s : ScriptB.State) (now : Nat),
      ScriptB.fireInact s now ≠ s → s.activeTimer = some now) ∧
    (∀ (s : ScriptB.State) (now : Nat), ScriptB.Reachable s →
      ScriptB.displayState s = DisplayState.Idle →
      ScriptB.fireInact s now = s) := by
  refine ⟨?_, ?_, ?_, ?_, ?_, ?_, ?_, ?_, ?_, ?_, ?_, ?_⟩
  · intro s now hr
    rw [PartZero.resetActiveTimer_spec s now (PartZero.reachableZero_inv hr).1]
  · intro s hh now hr hmem
    obtain ⟨⟨hp, hi2, hnd, hP, hA⟩, hC, hS, hD, hN⟩ := PartZero.reachableZero_inv hr
    unfold PartZero.fireInact
    rw [if_pos hmem]
    cases hat : s.activeTimer with
    | none =>
      rw [hat] at hA
      rw [hA] at hmem
      simp at hmem
    | some a =>
      rw [hat] at hA
      obtain ⟨d2, hd2⟩ := hA
      rw [hd2] at hmem
      simp only [List.mem_singleton, Prod.mk.injEq] at hmem
      obtain ⟨rfl, rfl⟩ := hmem
      have hact : s.isActive = true := by
        cases hAv : s.isActive
        · have h0 := (hS hAv).1
          rw [h0] at hat
          exact Option.noConfusion hat
        · rfl
      rw [hd2, PartZero.removeId_self]
      obtain ⟨q1, q2, q3, q4⟩ :=
        PartZero.showIdle_post_active
          { s with inactInsts := [], activeTimer := some hh } hact rfl
      exact ⟨(PartZero.displayZero_idle_iff _).mpr q1, ⟨q2, q3⟩, q4⟩
  · intro s hh now hne
    by_cases hmem : (hh, now) ∈ s.inactInsts
    · exact hmem
    · exact absurd (by unfold PartZero.fireInact; rw [if_neg hmem]) hne
  · intro s hh now hr hd
    obtain ⟨⟨hp, hi2, hnd, hP, hA⟩, hC, hS, hD, hN⟩ := PartZero.reachableZero_inv hr
    have hsh : s.idleShown = true := (PartZero.displayZero_idle_iff s).mp hd
    have hAv : s.isActive = false := by
      cases hA2 : s.isActive
      · rfl
      · rw [hD, hA2] at hsh; exact Bool.noConfusion hsh
    have hat : s.activeTimer = none := (hS hAv).1
    rw [hat] at hA
    unfold PartZero.fireInact
    rw [if_neg (by rw [hA]; simp)]
  · intro s u i now hne
    unfold ScriptA.showActive
    rw [if_neg hne]
  · intro s now hdl
    unfold ScriptA.fireInact
    rw [if_pos hdl]
    exact ⟨rfl, ⟨rfl, rfl⟩, rfl⟩
  · intro s now hne
    by_cases hdl : s.activeTimer = some now
    · exact hdl
    · exact absurd (by unfold ScriptA.fireInact; rw [if_neg hdl]) hne
  · intro s now hr hd
    have hsh : s.idleShown = true := (ScriptA.displayA_idle_iff s).mp hd
    have hat : s.activeTimer = none := ScriptA.reachA_idle_no_timer hr hsh
    unfold ScriptA.fireInact
    rw [if_neg (by rw [hat]; exact fun hc => Option.noConfusion hc)]
  · intro s u i now
    unfold ScriptB.showActive ScriptB.resetActiveTimer
    split <;> rfl
  · intro s now hdl
    unfold ScriptB.fireInact
    rw [if_pos hdl]
    exact ⟨rfl, ⟨rfl, rfl⟩, rfl⟩
  · intro s now hne
    by_cases hdl : s.activeTimer = some now
    · exact hdl
    · exact absurd (by unfold ScriptB.fireInact; rw [if_neg hdl]) hne
  · intro s now hr hd
    have hsh : s.idleShown = true := (ScriptB.displayB_idle_iff s).mp hd
    have hat : s.activeTimer = none := (ScriptB.reachB_idle_no_timer hr hsh).2.2
    unfold ScriptB.fireInact
    rw [if_neg (by rw [hat]; exact fun hc => Option.noConfusion hc)]

open Kiosk in
/-- Claim C7, witness: arming, firing, and the idle no-op, at
concrete reachable states of part_000 and of the two script.js
variants. -/
theorem C7_witness :
    (PartZero.resetActiveTimer PartZero.exActive 7).inactInsts =
      [(PartZero.exActive.nextId, 7 + PartZero.ACTIVE_TIMEOUT_MS)] ∧
    (PartZero.displayState (PartZero.fireInact PartZero.exActive 1 120001) =
      DisplayState.Idle ∧
      PartZero.sessionEmpty (PartZero.fireInact PartZero.exActive 1 120001) ∧
      (PartZero.fireInact PartZero.exActive 1 120001).inactInsts = []) ∧
    PartZero.fireInact PartZero.exIdle 0 5 = PartZero.exIdle ∧
    (ScriptA.showActive ScriptA.exIdle "https://x/f" "42" 3).activeTimer =
      some (3 + ScriptA.ACTIVE_TIMEOUT_MS) ∧
    (ScriptA.displayState (ScriptA.fireInact ScriptA.exActive 120000) =
      DisplayState.Idle ∧
      ScriptA.sessionEmpty (ScriptA.fireInact ScriptA.exActive 120000) ∧
      (ScriptA.fireInact ScriptA.exActive 120000).activeTimer = none) ∧
    ScriptA.fireInact ScriptA.exIdle 5 = ScriptA.exIdle ∧
    (ScriptB.showActive ScriptB.exIdle "https://x/f" "42" 3).activeTimer =
      some (3 + ScriptB.ACTIVE_TIMEOUT_MS) ∧
    (ScriptB.displayState (ScriptB.fireInact ScriptB.exActive 120000) =
      DisplayState.Idle ∧
      ScriptB.sessionEmpty (ScriptB.fireInact ScriptB.exActive 120000) ∧
      (ScriptB.fireInact ScriptB.exActive 120000).activeTimer = none) ∧
    ScriptB.fireInact ScriptB.exIdle 5 = ScriptB.exIdle :=
  ⟨C7_confirmed.1 PartZero.exActive 7
      (PartZero.Reachable.step (PartZero.Reachable.init true false false false) _),
   C7_confirmed.2.1 PartZero.exActive 1 120001
      (PartZero.Reachable.step (PartZero.Reachable.init true false false false) _)
      (by decide),
   C7_confirmed.2.2.2.1 PartZero.exIdle 0 5
      (PartZero.Reachable.init true false false false) (by decide),
   C7_confirmed.2.2.2.2.1 ScriptA.exIdle "https://x/f" "42" 3 (by decide),
   C7_confirmed.2.2.2.2.2.1 ScriptA.exActive 120000 (by decide),
   C7_confirmed.2.2.2.2.2.2.2.1 ScriptA.exIdle 5
      (ScriptA.Reachable.init true false false false false) (by decide),
   C7_confirmed.2.2.2.2.2.2.2.2.1 ScriptB.exIdle "https://x/f" "42" 3,
   C7_confirmed.2.2.2.2.2.2.2.2.2.1 ScriptB.exActive 120000 (by decide),
   C7_confirmed.2.2.2.2.2.2.2.2.2.2.2 ScriptB.exIdle 5
      (ScriptB.Reachable.init true false false false) (by decide)⟩

open Kiosk in
/-- Claim C8, confirmed: each of the three error classes — transport
failure, non-success HTTP response (both of which throw inside the
try body), and an active record with no truthy formUrl — is recovered
within the poll cycle.  In the script.js variants the thrown error is
absorbed by the catch handler, which falls back to showIdle, and the
cycle never navigates the page away; in part_000 and part_001 a
running poll timer is still running after the cycle, so polling
continues; in part_001 a failed fetch leaves the state untouched.  No
variant's poll operation is partial: every outcome produces a
successor state. -/
theorem C8_confirmed :
    (∀ (s : ScriptA.State) (o : FetchOutcome) (now : Nat), failedOutcome o →
      (∃ e, ScriptA.pollBody s o now = .error e) ∧
      ScriptA.pollLoop s o now = ScriptA.showIdle s) ∧
    (∀ (s : ScriptA.State) (d : StatusRecord) (now : Nat),
      d.active = true → truthyStr d.formUrl = false →
      ScriptA.pollLoop s (.success (some d)) now = ScriptA.showIdle s) ∧
    (∀ (s : ScriptA.State) (o : FetchOutcome) (now : Nat),
      (ScriptA.pollLoop s o now).navigated = s.navigated) ∧
    (∀ (s : ScriptB.State) (o : FetchOutcome) (now : Nat), failedOutcome o →
      (∃ e, ScriptB.pollBody s o now = .error e) ∧
      ScriptB.pollOnce s o now = ScriptB.showIdle s) ∧
    (∀ (s : PartZero.State) (o : FetchOutcome) (now : Nat),
      failedOutcome o ∨ noUrlOutcome o → s.pollTimer ≠ none →
      (PartZero.pollOnce s o now).pollTimer ≠ none) ∧
    (∀ (s : PartOne.State) (o : FetchOutcome) (now : Nat), failedOutcome o →
      PartOne.pollOnce s o now = s) ∧
    (∀ (s : PartOne.State) (d : StatusRecord) (now : Nat),
      d.active = true → truthyStr d.formUrl = false → s.pollTimer ≠ none →
      (PartOne.pollOnce s (.success (some d)) now).pollTimer ≠ none) := by
  refine ⟨?_, ?_, ?_, ?_, ?_, ?_, ?_⟩
  · intro s o now ho
    rcases ho with h1 | ⟨k, hk⟩
    · rw [h1]; exact ⟨⟨(), rfl⟩, rfl⟩
    · rw [hk]; exact ⟨⟨(), rfl⟩, rfl⟩
  · intro s d now hact hfu
    unfold ScriptA.pollLoop ScriptA.pollBody
    try dsimp only
    rw [if_pos hact]
    cases hdf : d.formUrl with
    | none => rfl
    | some u =>
      rw [hdf] at hfu
      simp only [truthyStr, bne_eq_false_iff_eq] at hfu
      rw [hfu]
      rfl
  · intro s o now
    cases o with
    | transportError => rfl
    | httpError k => rfl
    | success data =>
      cases data with
      | none => rfl
      | some d =>
        by_cases hact : d.active = true
        · unfold ScriptA.pollLoop ScriptA.pollBody
          try dsimp only
          rw [if_pos hact]
          cases hdf : d.formUrl with
          | none => rfl
          | some u =>
            by_cases hu : u = ""
            · rw [hu]; rfl
            · try dsimp only
              rw [if_neg hu]
              try dsimp only
              unfold ScriptA.showActive
              split <;> rfl
        · unfold ScriptA.pollLoop ScriptA.pollBody
          try dsimp only
          rw [if_neg hact]
          rfl
  · intro s o now ho
    rcases ho with h1 | ⟨k, hk⟩
    · rw [h1]; exact ⟨⟨(), rfl⟩, rfl⟩
    · rw [hk]; exact ⟨⟨(), rfl⟩, rfl⟩
  · intro s o now ho hpt
    have hred : PartZero.pollOnce s o now = PartZero.showIdle s := by
      rcases ho with (h1 | ⟨k, hk⟩) | ⟨d, hd, hact, hfu⟩
      · rw [h1]; rfl
      · rw [hk]; rfl
      · subst hd
        unfold PartZero.pollOnce PartZero.pollBody
        try dsimp only
        rw [if_pos hact]
        cases hdf : d.formUrl with
        | none => rfl
        | some u =>
          rw [hdf] at hfu
          simp only [truthyStr, bne_eq_false_iff_eq] at hfu
          rw [hfu]
          rfl
    rw [hred]
    unfold PartZero.showIdle
    split
    · exact hpt
    · simp
  · intro s o now ho
    rcases ho with h1 | ⟨k, hk⟩
    · rw [h1]; rfl
    · rw [hk]; rfl
  · intro s d now hact hfu hpt
    unfold PartOne.pollOnce
    try dsimp only
    rw [if_pos hact]
    unfold PartOne.showActive
    cases hdf : d.formUrl with
    | none =>
      try dsimp only
      unfold PartOne.resetActiveTimer PartOne.startPolling
      split
      · exact hpt
      · simp
    | some u =>
      rw [hdf] at hfu
      simp only [truthyStr, bne_eq_false_iff_eq] at hfu
      rw [hfu]
      try dsimp only
      rw [if_pos rfl]
      unfold PartOne.resetActiveTimer PartOne.startPolling
      split
      · exact hpt
      · simp

open Kiosk in
/-- Claim C8, witness: the error classes recovered at concrete
states. -/
theorem C8_witness :
    ScriptA.pollLoop ScriptA.exActive (.httpError 503) 2 =
      ScriptA.showIdle ScriptA.exActive ∧
    ScriptA.pollLoop ScriptA.exActive (.success (some recNoUrl)) 2 =
      ScriptA.showIdle ScriptA.exActive ∧
    (ScriptA.pollLoop ScriptA.exActive (.httpError 503) 2).navigated =
      ScriptA.exActive.navigated ∧
    ScriptB.pollOnce ScriptB.exActive .transportError 2 =
      ScriptB.showIdle ScriptB.exActive ∧
    (PartZero.pollOnce PartZero.exActive .transportError 2).pollTimer ≠ none ∧
    PartOne.pollOnce PartOne.exActive (.httpError 404) 2 = PartOne.exActive ∧
    (PartOne.pollOnce PartOne.exActive (.success (some recNoUrl)) 2).pollTimer ≠
      none :=
  ⟨(C8_confirmed.1 ScriptA.exActive _ 2 (Or.inr ⟨503, rfl⟩)).2,
   C8_confirmed.2.1 ScriptA.exActive recNoUrl 2 rfl rfl,
   C8_confirmed.2.2.1 ScriptA.exActive _ 2,
   (C8_confirmed.2.2.2.1 ScriptB.exActive _ 2 (Or.inl rfl)).2,
   C8_confirmed.2.2.2.2.1 PartZero.exActive _ 2 (Or.inl (Or.inl rfl))
     (by decide),
   C8_confirmed.2.2.2.2.2.1 PartOne.exActive _ 2 (Or.inr ⟨404, rfl⟩),
   C8_confirmed.2.2.2.2.2.2 PartOne.exActive recNoUrl 2 rfl rfl (by decide)⟩

open Kiosk in
/-- Claim C9, confirmed: in the first script.js variant, a session
change arms the grace timer to fire IFRAME_LOAD_GRACE_MS after the
src assignment with the new URL captured; if neither the frame's load
event nor a transition to idle intervenes, the firing invokes
switchToRedirect, which assigns window.location.href — modelled as
navigated — to formUrl, ending the polling loop, whereas a prior load
event or idle transition cancels the timer and the firing does
nothing. -/
theorem C9_confirmed (s : ScriptA.State) (u i : String) (now : Nat)
    (hne : ¬ (s.lastItemId = some i ∧ s.lastFormUrl = some u)) :
    (ScriptA.showActive s u i now).iframeLoadTimer =
      some (now + ScriptA.IFRAME_LOAD_GRACE_MS, u) ∧
    (ScriptA.showActive s u i now).navigated = s.navigated ∧
    (ScriptA.graceFire (ScriptA.showActive s u i now)
        (now + ScriptA.IFRAME_LOAD_GRACE_MS)).navigated = some u ∧
    (ScriptA.graceFire (ScriptA.showActive s u i now)
        (now + ScriptA.IFRAME_LOAD_GRACE_MS)).redirecting = true ∧
    (ScriptA.graceFire (ScriptA.showActive s u i now)
        (now + ScriptA.IFRAME_LOAD_GRACE_MS)).redirectShown = true ∧
    ScriptA.graceFire (ScriptA.onFrameLoad (ScriptA.showActive s u i now))
        (now + ScriptA.IFRAME_LOAD_GRACE_MS) =
      ScriptA.onFrameLoad (ScriptA.showActive s u i now) ∧
    ScriptA.graceFire (ScriptA.showIdle (ScriptA.showActive s u i now))
        (now + ScriptA.IFRAME_LOAD_GRACE_MS) =
      ScriptA.showIdle (ScriptA.showActive s u i now) := by
  unfold ScriptA.showActive
  rw [if_neg hne]
  refine ⟨rfl, rfl, ?_, ?_, ?_, ?_, ?_⟩ <;>
    simp [ScriptA.graceFire, ScriptA.onFrameLoad, ScriptA.showIdle,
      ScriptA.switchToRedirect]

open Kiosk in
/-- Claim C9, witness: the grace-timer redirect at the concrete
session change from startup. -/
theorem C9_witness :
    (ScriptA.showActive ScriptA.exIdle "https://x/f" "42" 0).iframeLoadTimer =
      some (0 + ScriptA.IFRAME_LOAD_GRACE_MS, "https://x/f") ∧
    (ScriptA.graceFire (ScriptA.showActive ScriptA.exIdle "https://x/f" "42" 0)
        (0 + ScriptA.IFRAME_LOAD_GRACE_MS)).navigated = some "https://x/f" :=
  ⟨(C9_confirmed ScriptA.exIdle "https://x/f" "42" 0 (by decide)).1,
   (C9_confirmed ScriptA.exIdle "https://x/f" "42" 0 (by decide)).2.2.1⟩

open Kiosk in
/-- Claim C10, confirmed: in all four variants, whatever the initial
visibility of the DOM regions, the startup sequence runs the Idle
transition before any poll response is processed, so the loop starts
in DisplayState Idle with an empty Session. -/
theorem C10_confirmed (b1 b2 b3 b4 b5 c1 c2 c3 c4 d1 d2 d3 d4 e1 e2 e3 e4 : Bool) :
    ScriptA.displayState (ScriptA.init b1 b2 b3 b4 b5) = DisplayState.Idle ∧
    ScriptA.sessionEmpty (ScriptA.init b1 b2 b3 b4 b5) ∧
    ScriptB.displayState (ScriptB.init c1 c2 c3 c4) = DisplayState.Idle ∧
    ScriptB.sessionEmpty (ScriptB.init c1 c2 c3 c4) ∧
    PartZero.displayState (PartZero.init d1 d2 d3 d4) = DisplayState.Idle ∧
    PartZero.sessionEmpty (PartZero.init d1 d2 d3 d4) ∧
    PartOne.displayState (PartOne.init e1 e2 e3 e4) = DisplayState.Idle ∧
    PartOne.sessionEmpty (PartOne.init e1 e2 e3 e4) := by
  refine ⟨rfl, ⟨rfl, rfl⟩, rfl, ⟨rfl, rfl⟩, ?_, ?_, rfl, ⟨rfl, rfl⟩⟩
  · cases d1 <;> rfl
  · cases d1 <;> exact ⟨rfl, rfl⟩
